import Mathlib

/-!
# Bookstore API: shallow embedding of the book handlers

Sources embedded here:

* `backend/models/Book.js` (schema, setters, validators, pre-save hook),
* `backend/routes/bookRoutes.js` (`validateBook`, `validateQuery`, routes),
* `backend/controllers/bookController.js` (`getBooks`, `getBookById`, `addBook`,
  `updateBook`, `deleteBook`, `getBookStats`),
* `backend/server.js` (the global error handler),
* `frontend/src/services/api.js` (base URL, response interceptor),
* `frontend/src/components/BookList.js` (the filter state).

Conventions of the embedding.

* The collection is a `List Book` in insertion order.  Prices are exact
  rationals, dates are milliseconds since the epoch.
* Text is a Lean `String`; one `Char` stands for one character of the
  JavaScript string.  Text is compared by code point, which is the binary
  comparison the store applies to strings.
* A numeric request parameter is represented by the number that
  `parseInt` / `parseFloat` reads from it; `none` is an absent parameter.
* `toUpperCase` / `toLowerCase` and the engine behind `$text` and `isURL`
  are not code of the repository; they are fields of `Runtime`.
* The store orders equal sort keys by insertion order (a stable sort).
* An id casts to a store identifier when it is 24 hexadecimal digits; stored
  ids are in lowercase.
-/

namespace Bookstore

/-! ## Data model (`models/Book.js`) -/

/-- A stored book document (`bookSchema` with `timestamps: true`). -/
structure Book where
  _id : String
  title : String
  author : String
  price : ℚ
  publishedDate : Int
  isbn : Option String
  genre : String
  description : Option String
  coverImage : Option String
  stock : ℚ
  createdAt : Int
  updatedAt : Int
  deriving DecidableEq

/-- The collection, in insertion order. -/
abbrev Store := List Book

/-- Library and engine functions the source calls but does not define. -/
structure Runtime where
  /-- The built-in `String.prototype.toUpperCase`. -/
  toUpperCase : String → String
  /-- The built-in `String.prototype.toLowerCase`. -/
  toLowerCase : String → String
  /-- The store's `$text: { $search }` match over the title/author text index. -/
  textMatch : String → Book → Bool
  /-- The `isURL` check of the request validator. -/
  isURL : String → Bool

/-- ASCII case mapping, text search by exact title or author, and a URL check
by scheme prefix: a concrete runtime used to evaluate the handlers. -/
def asciiRuntime : Runtime where
  toUpperCase := fun s => String.mk (s.data.map Char.toUpper)
  toLowerCase := fun s => String.mk (s.data.map Char.toLower)
  textMatch := fun s b => decide (b.title = s) || decide (b.author = s)
  isURL := fun s => "http://".data.isPrefixOf s.data || "https://".data.isPrefixOf s.data

/-! ## Query builder and list handler (`getBooks`) -/

/-- The query string of `GET /api/books` (`req.query`). -/
structure ListQuery where
  page : Option Nat := none
  limit : Option Nat := none
  sort : Option String := none
  order : Option String := none
  genre : Option String := none
  search : Option String := none
  minPrice : Option ℚ := none
  maxPrice : Option ℚ := none
  deriving DecidableEq

/-- The `query` object that `getBooks` hands to `find` and `countDocuments`. -/
structure Filter where
  genre : Option String := none
  text : Option String := none
  gte : Option ℚ := none
  lte : Option ℚ := none
  deriving DecidableEq

/-- JavaScript truthiness of an optional string parameter: present and non-empty. -/
def truthy : Option String → Bool
  | some s => decide (s ≠ "")
  | none => false

/-- Lines 19-33 of `getBooks`: `genre` and `search` are copied when truthy;
`price.$gte` / `price.$lte` are set for a supplied `minPrice` / `maxPrice`. -/
def buildQuery (q : ListQuery) : Filter where
  genre := if truthy q.genre then q.genre else none
  text := if truthy q.search then q.search else none
  gte := q.minPrice
  lte := q.maxPrice

/-- Whether a document satisfies the `query` object. -/
def Filter.matches (rt : Runtime) (f : Filter) (b : Book) : Bool :=
  (match f.genre with | some g => decide (b.genre = g) | none => true) &&
  (match f.text with | some s => rt.textMatch s b | none => true) &&
  (match f.gte with | some m => decide (m ≤ b.price) | none => true) &&
  (match f.lte with | some m => decide (b.price ≤ m) | none => true)

/-- The value a document holds in one field, as the store compares it. -/
inductive FieldVal where
  | missing
  | num (q : ℚ)
  | text (s : List Char)
  | oid (s : List Char)
  | date (t : Int)
  deriving DecidableEq

/-- The store's order of value kinds: null, numbers, strings, ids, dates. -/
def FieldVal.rank : FieldVal → Nat
  | .missing => 0
  | .num _ => 1
  | .text _ => 2
  | .oid _ => 3
  | .date _ => 4

/-- The store's comparison of two field values: by value within a kind,
by kind otherwise. -/
def FieldVal.le : FieldVal → FieldVal → Prop
  | .num a, .num b => a ≤ b
  | .text a, .text b => a ≤ b
  | .oid a, .oid b => a ≤ b
  | .date a, .date b => a ≤ b
  | a, b => a.rank ≤ b.rank

instance FieldVal.instDecidableLe : DecidableRel FieldVal.le := fun a b => by
  cases a <;> cases b <;> unfold FieldVal.le <;> infer_instance

/-- An optional text field as a field value. -/
def optText : Option String → FieldVal
  | some s => .text s.data
  | none => .missing

/-- The value of the field named `sort` in a document; a name that is no
field of the document reads as missing. -/
def field (sort : String) (b : Book) : FieldVal :=
  if sort = "title" then .text b.title.data
  else if sort = "author" then .text b.author.data
  else if sort = "price" then .num b.price
  else if sort = "publishedDate" then .date b.publishedDate
  else if sort = "createdAt" then .date b.createdAt
  else if sort = "updatedAt" then .date b.updatedAt
  else if sort = "_id" then .oid b._id.data
  else if sort = "genre" then .text b.genre.data
  else if sort = "stock" then .num b.stock
  else if sort = "isbn" then optText b.isbn
  else if sort = "description" then optText b.description
  else if sort = "coverImage" then optText b.coverImage
  else .missing

/-- Ascending order of two documents on the field named `sort`. -/
def keyLE (sort : String) (a b : Book) : Prop :=
  (field sort a).le (field sort b)

instance keyLE.instDecidable (sort : String) : DecidableRel (keyLE sort) := fun a b => by
  unfold keyLE; infer_instance

/-- The relation a `sortObj` of `{ [sort]: sortOrder }` sorts by: ascending
for `1`, descending for `-1`. -/
def sortRel (sort : String) (sortOrder : Int) (a b : Book) : Prop :=
  if sortOrder = -1 then keyLE sort b a else keyLE sort a b

instance sortRel.instDecidable (sort : String) (sortOrder : Int) :
    DecidableRel (sortRel sort sortOrder) := fun a b => by
  unfold sortRel; infer_instance

/-- The documents matching `f`, sorted: `Book.find(query).sort(sortObj)`. -/
def findSorted (rt : Runtime) (store : Store) (f : Filter) (sort : String)
    (sortOrder : Int) : List Book :=
  (store.filter (f.matches rt)).insertionSort (sortRel sort sortOrder)

/-- The cursor `Book.find(query).sort(sortObj).limit(limit).skip(skip)`: the
store sorts, then skips, then limits; a negative skip is refused by the
store and a limit of `0` means no limit. -/
def find (rt : Runtime) (store : Store) (f : Filter) (sort : String)
    (sortOrder : Int) (limit : Nat) (skip : Int) : Except String (List Book) :=
  if skip < 0 then .error "Skip value must be non-negative"
  else
    let rest := (findSorted rt store f sort sortOrder).drop skip.toNat
    .ok (if limit = 0 then rest else rest.take limit)

/-- The total of `Book.countDocuments(query)`. -/
def countDocuments (rt : Runtime) (store : Store) (f : Filter) : Nat :=
  (store.filter (f.matches rt)).length

/-- The `pagination` object of the list response; `totalPages` is `none`
when `Math.ceil(total / limit)` is not finite (a limit of `0`). -/
structure Pagination where
  currentPage : Nat
  totalPages : Option Nat
  totalBooks : Nat
  hasNextPage : Bool
  hasPrevPage : Bool
  deriving DecidableEq

/-- The response of `getBooks`. -/
inductive ListResponse where
  | ok (data : List Book) (pagination : Pagination)
  | failure (status : Nat) (error : String) (message : String)
  deriving DecidableEq

/-- The value of `Math.ceil(total / limit)` for natural `total` and `limit`. -/
def ceilDiv (total limit : Nat) : Option Nat :=
  if limit = 0 then none else some ((total + limit - 1) / limit)

/-- The handler `getBooks` (controller lines 5-70). -/
def getBooks (rt : Runtime) (store : Store) (q : ListQuery) : ListResponse :=
  let page := q.page.getD 1
  let limit := q.limit.getD 10
  let sort := q.sort.getD "createdAt"
  let order := q.order.getD "desc"
  let query := buildQuery q
  let sortOrder : Int := if order = "desc" then -1 else 1
  let skip : Int := ((page : Int) - 1) * (limit : Int)
  match find rt store query sort sortOrder limit skip with
  | .error msg => .failure 500 "Failed to fetch books" msg
  | .ok books =>
    let total := countDocuments rt store query
    let totalPages := ceilDiv total limit
    .ok books
      { currentPage := page
        totalPages := totalPages
        totalBooks := total
        hasNextPage := match totalPages with
          | some t => decide (page < t)
          | none => decide (0 < total)
        hasPrevPage := decide (1 < page) }

/-- The `data` array of a list response (empty when the handler failed). -/
def ListResponse.data : ListResponse → List Book
  | .ok d _ => d
  | .failure _ _ _ => []

/-- The `pagination.totalPages` of a list response. -/
def ListResponse.totalPages : ListResponse → Option Nat
  | .ok _ p => p.totalPages
  | .failure _ _ _ => none

/-- The `pagination.totalBooks` of a list response. -/
def ListResponse.totalBooks : ListResponse → Option Nat
  | .ok _ p => some p.totalBooks
  | .failure _ _ _ => none

/-! ## Request validation (`routes/bookRoutes.js`) -/

/-- One entry of `validationResult(req).array()`, or one failed schema path:
the field and the message. -/
structure FieldError where
  path : String
  msg : String
  deriving DecidableEq

/-- The genres of the schema `enum` and of the `isIn` lists of the routes. -/
def genres : List String :=
  ["Fiction", "Non-Fiction", "Science Fiction", "Mystery", "Romance", "Biography",
   "History", "Self-Help", "Other"]

/-- The sort fields `validateQuery` lists. -/
def sortFields : List String :=
  ["title", "author", "price", "publishedDate", "createdAt", "updatedAt"]

/-- The chain `validateQuery` (routes lines 57-86): every rule is `optional`
and records an error for a supplied value it refuses. -/
def validateQuery (q : ListQuery) : List FieldError :=
  (match q.page with
    | some p => if 1 ≤ p then [] else [⟨"page", "Page must be a positive integer"⟩]
    | none => []) ++
  (match q.limit with
    | some l => if 1 ≤ l ∧ l ≤ 100 then [] else [⟨"limit", "Limit must be between 1 and 100"⟩]
    | none => []) ++
  (match q.sort with
    | some s => if s ∈ sortFields then [] else [⟨"sort", "Invalid sort field"⟩]
    | none => []) ++
  (match q.order with
    | some o => if o ∈ ["asc", "desc"] then [] else [⟨"order", "Order must be either asc or desc"⟩]
    | none => []) ++
  (match q.genre with
    | some g => if g ∈ genres then [] else [⟨"genre", "Invalid genre filter"⟩]
    | none => []) ++
  (match q.minPrice with
    | some m => if 0 ≤ m then [] else [⟨"minPrice", "Minimum price must be a non-negative number"⟩]
    | none => []) ++
  (match q.maxPrice with
    | some m => if 0 ≤ m then [] else [⟨"maxPrice", "Maximum price must be a non-negative number"⟩]
    | none => [])

/-- The route `router.get('/', validateQuery, getBooks)`: the validators run
and record their errors on the request, then `getBooks` runs; `getBooks`
does not read `validationResult(req)`.  The pair is the recorded errors and
the response sent. -/
def listRoute (rt : Runtime) (store : Store) (q : ListQuery) : List FieldError × ListResponse :=
  (validateQuery q, getBooks rt store q)

/-- The body of a create or update request (`req.body`). -/
structure BookInput where
  title : Option String := none
  author : Option String := none
  price : Option ℚ := none
  publishedDate : Option Int := none
  isbn : Option String := none
  genre : Option String := none
  description : Option String := none
  coverImage : Option String := none
  stock : Option ℚ := none
  deriving DecidableEq

/-- The characters `String.prototype.trim` and the pattern `\s` remove. -/
def isWhiteSpace (c : Char) : Bool :=
  let n := c.toNat
  n = 0x09 || n = 0x0A || n = 0x0B || n = 0x0C || n = 0x0D || n = 0x20 || n = 0xA0 ||
  n = 0x1680 || (0x2000 ≤ n && n ≤ 0x200A) || n = 0x2028 || n = 0x2029 || n = 0x202F ||
  n = 0x205F || n = 0x3000 || n = 0xFEFF

/-- The `trim` of the request sanitizer and of the schema setter. -/
def trim (s : String) : String :=
  String.mk ((s.data.dropWhile isWhiteSpace).rdropWhile isWhiteSpace)

/-- The `length` of a JavaScript string: a character beyond the basic plane
counts twice. -/
def jsLength (s : String) : Nat :=
  (s.data.map (fun c => if c.toNat < 0x10000 then 1 else 2)).sum

/-- The pattern `/^(?:\d{10}|\d{13})$/` of the route and of the schema. -/
def isbnPattern (s : String) : Bool :=
  (s.length = 10 || s.length = 13) && s.data.all Char.isDigit

/-- The sanitizers of `validateBook`: `title` and `author` are turned into
strings and trimmed, and the result replaces the field of the body. -/
def sanitizeBook (body : BookInput) : BookInput :=
  { body with
    title := some (trim (body.title.getD ""))
    author := some (trim (body.author.getD "")) }

/-- The validators of `validateBook` (routes lines 14-49), run on the
sanitized body. -/
def validateBook (rt : Runtime) (body : BookInput) : List FieldError :=
  let b := sanitizeBook body
  let title := b.title.getD ""
  let author := b.author.getD ""
  (if 1 ≤ title.length ∧ title.length ≤ 200 then []
    else [⟨"title", "Title is required and must be between 1 and 200 characters"⟩]) ++
  (if 1 ≤ author.length ∧ author.length ≤ 100 then []
    else [⟨"author", "Author is required and must be between 1 and 100 characters"⟩]) ++
  (match b.price with
    | some p => if 0 ≤ p ∧ p ≤ 10000 then []
        else [⟨"price", "Price must be a number between 0 and 10,000"⟩]
    | none => [⟨"price", "Price must be a number between 0 and 10,000"⟩]) ++
  (match b.publishedDate with
    | some _ => []
    | none => [⟨"publishedDate", "Published date must be a valid date"⟩]) ++
  (match b.isbn with
    | some i => if isbnPattern i then [] else [⟨"isbn", "ISBN must be 10 or 13 digits"⟩]
    | none => []) ++
  (match b.genre with
    | some g => if g ∈ genres then [] else [⟨"genre", "Invalid genre"⟩]
    | none => []) ++
  (match b.description with
    | some d => if d.length ≤ 1000 then []
        else [⟨"description", "Description cannot exceed 1000 characters"⟩]
    | none => []) ++
  (match b.coverImage with
    | some u => if rt.isURL u then [] else [⟨"coverImage", "Cover image must be a valid URL"⟩]
    | none => []) ++
  (match b.stock with
    | some n => if n.den = 1 ∧ 0 ≤ n then []
        else [⟨"stock", "Stock must be a non-negative integer"⟩]
    | none => [])

/-- The check `isMongoId` of `validateId`: 24 characters that read as a
hexadecimal number, with the optional `0x` / `0h` prefix the check allows. -/
def isMongoId (id : String) : Bool :=
  let hex := fun (cs : List Char) => !cs.isEmpty && cs.all (fun c => c.isDigit ||
    ('a' ≤ c && c ≤ 'f') || ('A' ≤ c && c ≤ 'F'))
  id.length = 24 &&
    (hex id.data ||
      (("0x".data.isPrefixOf id.data || "0X".data.isPrefixOf id.data ||
        "0h".data.isPrefixOf id.data || "0H".data.isPrefixOf id.data) && hex (id.data.drop 2)))

/-- The chain `validateId` (routes lines 51-55). -/
def validateId (id : String) : List FieldError :=
  if isMongoId id then [] else [⟨"id", "Invalid book ID format"⟩]

/-! ## Schema (`models/Book.js`) -/

/-- The schema setters (`trim: true` on `title`, `author` and `isbn`). -/
def applySetters (body : BookInput) : BookInput :=
  { body with
    title := body.title.map trim
    author := body.author.map trim
    isbn := body.isbn.map trim }

/-- The pattern `/^https?:\/\/.+/` of `coverImage`: the scheme, then a
character that is no line terminator. -/
def coverImagePattern (s : String) : Bool :=
  let after := fun (cs : List Char) => match cs with
    | c :: _ => !(c = '\n' || c = '\r' || c.toNat = 0x2028 || c.toNat = 0x2029)
    | [] => false
  ("http://".data.isPrefixOf s.data && after (s.data.drop 7)) ||
  ("https://".data.isPrefixOf s.data && after (s.data.drop 8))

/-- The validators of `bookSchema` on the paths of `d`.  With
`isUpdate = false` (a document being saved) a required path that is absent
fails; with `isUpdate = true` (update validators) only the paths present in
the update are checked.  `now` is `new Date()`. -/
def schemaErrors (now : Int) (isUpdate : Bool) (d : BookInput) : List FieldError :=
  (match d.title with
    | some t => (if t = "" then [⟨"title", "Title is required"⟩] else []) ++
        (if jsLength t ≤ 200 then [] else [⟨"title", "Title cannot be more than 200 characters"⟩])
    | none => if isUpdate then [] else [⟨"title", "Title is required"⟩]) ++
  (match d.author with
    | some a => (if a = "" then [⟨"author", "Author is required"⟩] else []) ++
        (if jsLength a ≤ 100 then []
          else [⟨"author", "Author name cannot be more than 100 characters"⟩])
    | none => if isUpdate then [] else [⟨"author", "Author is required"⟩]) ++
  (match d.price with
    | some p => (if 0 ≤ p then [] else [⟨"price", "Price cannot be negative"⟩]) ++
        (if p ≤ 10000 then [] else [⟨"price", "Price cannot exceed $10,000"⟩])
    | none => if isUpdate then [] else [⟨"price", "Price is required"⟩]) ++
  (match d.publishedDate with
    | some v => if v ≤ now then []
        else [⟨"publishedDate", "Published date cannot be in the future"⟩]
    | none => if isUpdate then [] else [⟨"publishedDate", "Published date is required"⟩]) ++
  (match d.isbn with
    | some i => if i = "" ∨ isbnPattern i then [] else [⟨"isbn", "ISBN must be 10 or 13 digits"⟩]
    | none => []) ++
  (match d.genre with
    | some g => if g ∈ genres then []
        else [⟨"genre", "`" ++ g ++ "` is not a valid enum value for path `genre`."⟩]
    | none => []) ++
  (match d.description with
    | some t => if jsLength t ≤ 1000 then []
        else [⟨"description", "Description cannot be more than 1000 characters"⟩]
    | none => []) ++
  (match d.coverImage with
    | some u => if u = "" ∨ coverImagePattern u then []
        else [⟨"coverImage", "Cover image must be a valid URL"⟩]
    | none => []) ++
  (match d.stock with
    | some n => if 0 ≤ n then [] else [⟨"stock", "Stock cannot be negative"⟩]
    | none => [])

/-- The message of the validation error the schema throws. -/
def validationMessage (subject : String) (errs : List FieldError) : String :=
  subject ++ ": " ++ ", ".intercalate (errs.map (fun e => e.path ++ ": " ++ e.msg))

/-- The first character uppercased, the remainder lowercased:
`s.charAt(0).toUpperCase() + s.slice(1).toLowerCase()`. -/
def capitalize (rt : Runtime) (s : String) : String :=
  rt.toUpperCase (String.mk (s.data.take 1)) ++ rt.toLowerCase (String.mk (s.data.drop 1))

/-- The hook `bookSchema.pre('save')` (model lines 81-90). -/
def preSave (rt : Runtime) (doc : Book) : Book :=
  { doc with
    title := if doc.title = "" then doc.title else capitalize rt doc.title
    author := if doc.author = "" then doc.author else capitalize rt doc.author }

/-- The unique sparse index on `isbn`: a document with that id and isbn
collides when another document holds the same isbn; a document without isbn
is not in the index. -/
def isbnCollides (store : Store) (id : String) (isbn : Option String) : Bool :=
  match isbn with
  | some i => store.any (fun b => decide (b._id ≠ id) && decide (b.isbn = some i))
  | none => false

/-- The unique index on `_id`. -/
def idCollides (store : Store) (id : String) : Bool :=
  store.any (fun b => decide (b._id = id))

/-! ## Create and update handlers (`addBook`, `updateBook`) -/

/-- The response of a handler that answers with one book. -/
inductive BookResponse where
  /-- Answer `{ success: true, message, data }` with the given status. -/
  | success (status : Nat) (message : String) (data : Book)
  /-- Status 400, `error: 'Validation Error'`, `details: errors.array()`. -/
  | validationError (details : List FieldError)
  /-- Answer `{ success: false, error, message }` with the given status. -/
  | failure (status : Nat) (error : String) (message : String)
  deriving DecidableEq

/-- The HTTP status of a response. -/
def BookResponse.status : BookResponse → Nat
  | .success st _ _ => st
  | .validationError _ => 400
  | .failure st _ _ => st

/-- The book a successful response carries. -/
def BookResponse.book : BookResponse → Option Book
  | .success _ _ b => some b
  | _ => none

/-- The handler `addBook` (controller lines 100-137).  `errors` is
`validationResult(req)`, `body` is `req.body` as the route's sanitizers left
it, `now` the clock and `newId` the identifier the store generates.
`new Book(req.body)` applies the setters and the defaults; `save()` runs the
schema validators, then the pre-save hook, then inserts, and the unique
indexes refuse a duplicate key (isbn, or id) with code 11000.  Every other
error, a failed schema validation among them, is answered with status 500. -/
def addBook (rt : Runtime) (now : Int) (newId : String) (store : Store)
    (errors : List FieldError) (body : BookInput) : BookResponse × Store :=
  if errors ≠ [] then (.validationError errors, store)
  else
    let d := applySetters body
    let errs := schemaErrors now false d
    match d.title, d.author, d.price, d.publishedDate with
    | some t, some a, some p, some pd =>
      if errs ≠ [] then
        (.failure 500 "Failed to create book" (validationMessage "Book validation failed" errs), store)
      else
        let newBook : Book := preSave rt
          { _id := newId, title := t, author := a, price := p, publishedDate := pd
            isbn := d.isbn, genre := d.genre.getD "Other", description := d.description
            coverImage := d.coverImage, stock := d.stock.getD 0
            createdAt := now, updatedAt := now }
        if idCollides store newId || isbnCollides store newId newBook.isbn then
          (.failure 400 "Duplicate Error" "A book with this ISBN already exists", store)
        else (.success 201 "Book created successfully" newBook, store ++ [newBook])
    | _, _, _, _ =>
      (.failure 500 "Failed to create book" (validationMessage "Book validation failed" errs), store)

/-- The route `router.post('/', validateBook, addBook)`. -/
def postRoute (rt : Runtime) (now : Int) (newId : String) (store : Store)
    (body : BookInput) : BookResponse × Store :=
  addBook rt now newId store (validateBook rt body) (sanitizeBook body)

/-- Whether a string casts to a store identifier: 24 hexadecimal digits. -/
def castsToObjectId (id : String) : Bool :=
  id.length = 24 && id.data.all (fun c => c.isDigit || ('a' ≤ c && c ≤ 'f') || ('A' ≤ c && c ≤ 'F'))

/-- The canonical (lowercase) text of an identifier. -/
def canonicalId (id : String) : String :=
  String.mk (id.data.map Char.toLower)

/-- The `$set` of an update on a stored document: the fields present in the
update replace the stored ones, and the timestamps option sets `updatedAt`. -/
def applyUpdate (now : Int) (d : BookInput) (b : Book) : Book :=
  { b with
    title := d.title.getD b.title
    author := d.author.getD b.author
    price := d.price.getD b.price
    publishedDate := d.publishedDate.getD b.publishedDate
    isbn := match d.isbn with | some i => some i | none => b.isbn
    genre := d.genre.getD b.genre
    description := match d.description with | some t => some t | none => b.description
    coverImage := match d.coverImage with | some u => some u | none => b.coverImage
    stock := d.stock.getD b.stock
    updatedAt := now }

/-- The handler `updateBook` (controller lines 140-192).
`Book.findByIdAndUpdate(id, body, { new: true, runValidators: true })` casts
the id, applies the setters to the update, runs the update validators on
the paths present, and writes the update to the document with that id; it
runs no `save` hook.  A cast or validation error is answered with status
500, a duplicate isbn (code 11000) with 400, no document with 404. -/
def updateBook (now : Int) (store : Store) (errors : List FieldError)
    (id : String) (body : BookInput) : BookResponse × Store :=
  if errors ≠ [] then (.validationError errors, store)
  else if !castsToObjectId id then
    (.failure 500 "Failed to update book" "Cast to ObjectId failed", store)
  else
    let d := applySetters body
    let errs := schemaErrors now true d
    if errs ≠ [] then
      (.failure 500 "Failed to update book" (validationMessage "Validation failed" errs), store)
    else
      match store.find? (fun b => decide (b._id = canonicalId id)) with
      | none => (.failure 404 "Book not found" "No book found with the provided ID", store)
      | some old =>
        let updatedBook := applyUpdate now d old
        if isbnCollides store old._id updatedBook.isbn then
          (.failure 400 "Duplicate Error" "A book with this ISBN already exists", store)
        else
          (.success 200 "Book updated successfully" updatedBook,
            store.map (fun b => if b._id = old._id then updatedBook else b))

/-- The route `router.put('/:id', [...validateId, ...validateBook], updateBook)`. -/
def putRoute (rt : Runtime) (now : Int) (store : Store) (id : String)
    (body : BookInput) : BookResponse × Store :=
  updateBook now store (validateId id ++ validateBook rt body) id (sanitizeBook body)

/-! ## Read and delete handlers (`getBookById`, `deleteBook`) -/

/-- The response of `getBookById`. -/
inductive GetResponse where
  /-- Status 200, `{ success: true, data: book }`. -/
  | found (data : Book)
  /-- Answer `{ success: false, error, message }` with the given status. -/
  | failure (status : Nat) (error : String) (message : String)
  deriving DecidableEq

/-- The HTTP status of a read response. -/
def GetResponse.status : GetResponse → Nat
  | .found _ => 200
  | .failure st _ _ => st

/-- The handler `getBookById` (controller lines 73-97): `Book.findById`
casts the id and throws when it does not cast, which the handler answers
with status 500; no document is answered with 404.  The handler does not
read `validationResult(req)`. -/
def getBookById (store : Store) (id : String) : GetResponse :=
  if !castsToObjectId id then .failure 500 "Failed to fetch book" "Cast to ObjectId failed"
  else
    match store.find? (fun b => decide (b._id = canonicalId id)) with
    | none => .failure 404 "Book not found" "No book found with the provided ID"
    | some book => .found book

/-- The route `router.get('/:id', validateId, getBookById)`: the errors the
validator records, and the response sent. -/
def getRoute (store : Store) (id : String) : List FieldError × GetResponse :=
  (validateId id, getBookById store id)

/-- The response of `deleteBook`. -/
inductive DeleteResponse where
  /-- Status 200, `data: { id: req.params.id }`. -/
  | deleted (id : String)
  /-- Answer `{ success: false, error, message }` with the given status. -/
  | failure (status : Nat) (error : String) (message : String)
  deriving DecidableEq

/-- The HTTP status of a delete response. -/
def DeleteResponse.status : DeleteResponse → Nat
  | .deleted _ => 200
  | .failure st _ _ => st

/-- The handler `deleteBook` (controller lines 195-220):
`Book.findByIdAndDelete` casts the id (status 500 when it does not cast),
removes the document with that id and returns it, or returns `null` (status
404).  The handler does not read `validationResult(req)`. -/
def deleteBook (store : Store) (id : String) : DeleteResponse × Store :=
  if !castsToObjectId id then
    (.failure 500 "Failed to delete book" "Cast to ObjectId failed", store)
  else
    match store.find? (fun b => decide (b._id = canonicalId id)) with
    | none => (.failure 404 "Book not found" "No book found with the provided ID", store)
    | some _ => (.deleted id, store.eraseP (fun b => decide (b._id = canonicalId id)))

/-- The route `router.delete('/:id', validateId, deleteBook)`: the errors the
validator records, and the outcome of the handler. -/
def deleteRoute (store : Store) (id : String) : List FieldError × DeleteResponse × Store :=
  (validateId id, deleteBook store id)

/-! ## Sequences of requests -/

/-- One create request: the clock, the identifier the store generates, and
the body. -/
structure CreateRequest where
  now : Int
  newId : String
  body : BookInput

/-- The responses to a sequence of create requests, and the final store. -/
def createAll (rt : Runtime) : Store → List CreateRequest → List BookResponse × Store
  | store, [] => ([], store)
  | store, r :: rs =>
    let out := postRoute rt r.now r.newId store r.body
    let rest := createAll rt out.2 rs
    (out.1 :: rest.1, rest.2)

/-- A write request to the API. -/
inductive Request where
  | create (now : Int) (newId : String) (body : BookInput)
  | update (now : Int) (id : String) (body : BookInput)
  | delete (id : String)

/-- The store after one write request. -/
def step (rt : Runtime) (store : Store) : Request → Store
  | .create now newId body => (postRoute rt now newId store body).2
  | .update now id body => (putRoute rt now store id body).2
  | .delete id => (deleteRoute store id).2.2

/-- The store reached from the empty store by a sequence of write requests. -/
def run (rt : Runtime) (reqs : List Request) : Store :=
  reqs.foldl (step rt) []

/-! ## Statistics (`getBookStats`) -/

/-- The `$year` operator: the calendar year (UTC) of a date given in
milliseconds since the epoch. -/
def yearOf (ms : Int) : Int :=
  let z := ms / 86400000 + 719468
  let era := z / 146097
  let doe := z - era * 146097
  let yoe := (doe - doe / 1460 + doe / 36524 - doe / 146096) / 365
  let doy := doe - (365 * yoe + yoe / 4 - yoe / 100)
  let mp := (5 * doy + 2) / 153
  yoe + era * 400 + (if mp < 10 then 0 else 1)

/-- The document of the first pipeline (`$group` with `_id: null`). -/
structure Overview where
  totalBooks : Nat
  totalValue : ℚ
  averagePrice : ℚ
  minPrice : ℚ
  maxPrice : ℚ
  deriving DecidableEq

/-- One document of the second pipeline (`$group` by `$genre`). -/
structure GenreStat where
  _id : String
  count : Nat
  averagePrice : ℚ
  deriving DecidableEq

/-- One document of the third pipeline (`$group` by the year of `$publishedDate`). -/
structure YearStat where
  _id : Int
  count : Nat
  deriving DecidableEq

/-- The `data` of the statistics response; `overview` is `none` for the
empty object `{}`. -/
structure Stats where
  overview : Option Overview
  byGenre : List GenreStat
  byYear : List YearStat
  deriving DecidableEq

/-- The first pipeline and `stats[0] || {}`: one group over the whole
collection, no group (and so `{}`) for the empty collection. -/
def overviewStats : Store → Option Overview
  | [] => none
  | b :: rest =>
    some
      { totalBooks := (b :: rest).length
        totalValue := ((b :: rest).map (fun x => x.price)).sum
        averagePrice := ((b :: rest).map (fun x => x.price)).sum / ((b :: rest).length : ℚ)
        minPrice := rest.foldl (fun m x => min m x.price) b.price
        maxPrice := rest.foldl (fun m x => max m x.price) b.price }

/-- The second pipeline: one group per distinct genre with its count and mean
price, sorted by `count` descending. -/
def genreStats (store : Store) : List GenreStat :=
  ((store.map (fun b => b.genre)).dedup.map (fun g =>
      ({ _id := g
         count := (store.filter (fun b => decide (b.genre = g))).length
         averagePrice :=
          ((store.filter (fun b => decide (b.genre = g))).map (fun x => x.price)).sum /
            ((store.filter (fun b => decide (b.genre = g))).length : ℚ) } : GenreStat))).insertionSort
    (fun x y => y.count ≤ x.count)

/-- The third pipeline: one group per distinct publication year with its
count, sorted by year descending, cut to 10. -/
def yearStats (store : Store) : List YearStat :=
  (((store.map (fun b => yearOf b.publishedDate)).dedup.map (fun y =>
      ({ _id := y
         count := (store.filter (fun b => decide (yearOf b.publishedDate = y))).length }
        : YearStat))).insertionSort (fun x y => y._id ≤ x._id)).take 10

/-- The `data` of the handler `getBookStats` (controller lines 223-267). -/
def getBookStats (store : Store) : Stats where
  overview := overviewStats store
  byGenre := genreStats store
  byYear := yearStats store

/-! ## The isbn pattern -/

/-- The pattern `\d{n}` at the head of the input: what is left after exactly
`n` ASCII digits, if the input starts with that many. -/
def matchDigits : Nat → List Char → Option (List Char)
  | 0, cs => some cs
  | _ + 1, [] => none
  | n + 1, c :: cs => if c.isDigit then matchDigits n cs else none

/-- The regular expression `/^(?:\d{10}|\d{13})$/`, read as written: ten
digits and then the end of the input, or thirteen digits and then the end. -/
def isbnRegex (s : String) : Bool :=
  matchDigits 10 s.data == some [] || matchDigits 13 s.data == some []

/-! ## Error responses and the error handler of `server.js` -/

/-- The body of an error response with its status; `message` and `details`
are `none` when the body has no such field. -/
structure ErrorBody where
  status : Nat
  error : String
  message : Option String
  details : Option (List FieldError)
  deriving DecidableEq

/-- The error body of a list response. -/
def ListResponse.errorBody : ListResponse → Option ErrorBody
  | .ok _ _ => none
  | .failure st e m => some ⟨st, e, some m, none⟩

/-- The error body of a create or update response: the validation error
carries `details` and no `message` (controller lines 105-109, 145-149). -/
def BookResponse.errorBody : BookResponse → Option ErrorBody
  | .success _ _ _ => none
  | .validationError d => some ⟨400, "Validation Error", none, some d⟩
  | .failure st e m => some ⟨st, e, some m, none⟩

/-- The error body of a read response. -/
def GetResponse.errorBody : GetResponse → Option ErrorBody
  | .found _ => none
  | .failure st e m => some ⟨st, e, some m, none⟩

/-- The error body of a delete response. -/
def DeleteResponse.errorBody : DeleteResponse → Option ErrorBody
  | .deleted _ => none
  | .failure st e m => some ⟨st, e, some m, none⟩

/-- An error thrown by the store or the schema, as the handlers see it. -/
structure ThrownError where
  name : String
  message : String
  code : Option Nat := none
  status : Option Nat := none
  deriving DecidableEq

/-- The handlers of the book controller. -/
inductive Handler where
  | getBooks
  | getBookById
  | addBook
  | updateBook
  | deleteBook
  | getBookStats
  deriving DecidableEq

/-- The `catch` block of each handler of the controller: the message of the
error is sent as it is; `process.env.NODE_ENV` is not read. -/
def catchBlock (h : Handler) (error : ThrownError) : ErrorBody :=
  match h with
  | .getBooks => ⟨500, "Failed to fetch books", some error.message, none⟩
  | .getBookById => ⟨500, "Failed to fetch book", some error.message, none⟩
  | .addBook =>
    if error.code = some 11000 then
      ⟨400, "Duplicate Error", some "A book with this ISBN already exists", none⟩
    else ⟨500, "Failed to create book", some error.message, none⟩
  | .updateBook =>
    if error.code = some 11000 then
      ⟨400, "Duplicate Error", some "A book with this ISBN already exists", none⟩
    else ⟨500, "Failed to update book", some error.message, none⟩
  | .deleteBook => ⟨500, "Failed to delete book", some error.message, none⟩
  | .getBookStats => ⟨500, "Failed to fetch book statistics", some error.message, none⟩

/-- The global error handler of `server.js` (lines 127-149), for an error
that reaches it; `nodeEnv` is `process.env.NODE_ENV`. -/
def globalErrorHandler (nodeEnv : Option String) (err : ThrownError) : ErrorBody :=
  if err.name = "ValidationError" then ⟨400, "Validation Error", some err.message, none⟩
  else if err.name = "CastError" then
    ⟨400, "Invalid ID format", some "The provided ID is not valid", none⟩
  else
    ⟨(match err.status with | some st => if st = 0 then 500 else st | none => 500),
      "Internal Server Error",
      some (if nodeEnv = some "development" then err.message else "Something went wrong"), none⟩

/-- What the caller of a book request receives when the store throws inside
the handler: every handler wraps its body in `try`/`catch`, so the error is
answered by the handler's own `catch` block and never reaches the global
error handler. -/
def onStoreFailure (nodeEnv : Option String) (h : Handler) (error : ThrownError) : ErrorBody :=
  let _env := nodeEnv
  catchBlock h error

/-- The `pagination.hasNextPage` of a list response. -/
def ListResponse.hasNextPage : ListResponse → Option Bool
  | .ok _ p => some p.hasNextPage
  | .failure _ _ _ => none

/-- The `pagination.hasPrevPage` of a list response. -/
def ListResponse.hasPrevPage : ListResponse → Option Bool
  | .ok _ p => some p.hasPrevPage
  | .failure _ _ _ => none

/-! ## API client (`frontend/src/services/api.js`) -/

/-- The operator `||` on an optional text and a fallback text: the left
operand when it is present and non-empty, the fallback otherwise. -/
def orElse (a : Option String) (b : String) : String :=
  match a with
  | some x => if x ≠ "" then x else b
  | none => b

/-- The error the HTTP library hands to the response interceptor: its own
`message`, and the `response` (status and body) when one was received. -/
structure AxiosError where
  message : String
  response : Option ErrorBody
  deriving DecidableEq

/-- The value the response interceptor rejects with. -/
structure Rejection where
  message : String
  status : Option Nat
  deriving DecidableEq

/-- The error branch of the response interceptor (lines 32-35):
`error.response?.data?.message || error.message || 'Something went wrong'`
and `error.response?.status`. -/
def rejectWith (error : AxiosError) : Rejection where
  message :=
    orElse (error.response.bind (fun r => r.message))
      (orElse (some error.message) "Something went wrong")
  status := error.response.map (fun r => r.status)

/-- The text of the notification a view shows for a rejected call:
`toast.error(error.message || fallback)`. -/
def notification (r : Rejection) (fallback : String) : String :=
  orElse (some r.message) fallback

/-- The constant `API_BASE_URL` (line 3): the configured URL when it is set
and non-empty, the default otherwise. -/
def apiBaseUrl (configured : Option String) : String :=
  orElse configured "https://bookstore-opal-seven.vercel.app"

/-- The constant `cleanedBaseUrl` (line 6): `replace(/\/$/, '')` removes one
`/` at the end of the text, if there is one. -/
def cleanedBaseUrl (url : String) : String :=
  match url.data.reverse with
  | '/' :: rest => String.mk rest.reverse
  | _ => url

/-! ## The filters of the list view (`frontend/src/components/BookList.js`) -/

/-- The state `filters` of the list view. -/
structure Filters where
  search : String
  genre : String
  minPrice : String
  maxPrice : String
  sort : String
  order : String
  deriving DecidableEq

/-- The initial state of `filters` (lines 14-21). -/
def defaultFilters : Filters :=
  { search := "", genre := "", minPrice := "", maxPrice := "", sort := "createdAt"
    order := "desc" }

/-- The state `pagination` of the list view. -/
structure PaginationState where
  currentPage : Nat
  totalPages : Nat
  totalBooks : Nat
  limit : Nat
  deriving DecidableEq

/-- The condition under which the button `Clear Filters` is rendered (line 157):
`Object.values(filters).some(v => v !== '' && v !== 'createdAt' && v !== 'desc')`. -/
def showClearFilters (f : Filters) : Bool :=
  [f.search, f.genre, f.minPrice, f.maxPrice, f.sort, f.order].any
    (fun v => decide (v ≠ "") && decide (v ≠ "createdAt") && decide (v ≠ "desc"))

/-- The callback `clearFilters` (lines 91-101) on the two pieces of state. -/
def clearFilters (state : Filters × PaginationState) : Filters × PaginationState :=
  (defaultFilters, { state.2 with currentPage := 1 })

/-! ## A runtime with a character whose uppercase is two characters -/

/-- Case mapping as the JavaScript built-ins do it on ASCII letters and on
`ß`, whose uppercase is `SS`; other characters are left as they are. -/
def sharpSRuntime : Runtime where
  toUpperCase := fun s =>
    String.mk (s.data.flatMap (fun c => if c = 'ß' then ['S', 'S'] else [c.toUpper]))
  toLowerCase := fun s => String.mk (s.data.map Char.toLower)
  textMatch := asciiRuntime.textMatch
  isURL := asciiRuntime.isURL

/-- Whether every character of a text is an ASCII character. -/
def isAscii (s : String) : Bool :=
  s.data.all (fun c => decide (c.toNat < 128))

/-! ## Sample data -/

/-- A stored book used to evaluate the handlers. -/
def dune : Book :=
  { _id := "64b000000000000000000001", title := "Dune", author := "Frank herbert", price := 12
    publishedDate := -139000000000, isbn := some "0441013597", genre := "Science Fiction"
    description := none, coverImage := none, stock := 4, createdAt := 1000, updatedAt := 1000 }

/-- A second stored book. -/
def gaudyNight : Book :=
  { _id := "64b000000000000000000002", title := "Gaudy night", author := "Dorothy sayers"
    price := 9, publishedDate := -1080000000000, isbn := none, genre := "Mystery"
    description := none, coverImage := none, stock := 2, createdAt := 2000, updatedAt := 2000 }

/-- A third stored book. -/
def theMoonstone : Book :=
  { _id := "64b000000000000000000003", title := "The moonstone", author := "Wilkie collins"
    price := 7, publishedDate := -3200000000000, isbn := none, genre := "Mystery"
    description := none, coverImage := none, stock := 0, createdAt := 3000, updatedAt := 3000 }

/-- A collection of three books. -/
def sampleStore : Store := [dune, gaudyNight, theMoonstone]

/-- The body of the create scenario: the hobbit, published 1937-09-21. -/
def hobbitInput : BookInput :=
  { title := some "the hobbit", author := some "j tolkien", price := some 15
    publishedDate := some (-1018828800000), genre := some "Fiction" }

/-- A list request with two records per page. -/
def twoPerPage : ListQuery := { limit := some 2 }

/-- The list scenario: `?genre=Mystery&sort=price&order=asc&page=1&limit=5`. -/
def mysteryByPrice : ListQuery :=
  { genre := some "Mystery", sort := some "price", order := some "asc", page := some 1
    limit := some 5 }

/-- The create scenario with a space before the title. -/
def paddedHobbitInput : BookInput := { hobbitInput with title := some " the hobbit" }

/-- A full update body whose title is `the HOBBIT`. -/
def shoutedHobbitInput : BookInput := { hobbitInput with title := some "the HOBBIT" }

/-- The book the create scenario stores. -/
def hobbit : Book :=
  { _id := "64b000000000000000000004", title := "The hobbit", author := "J tolkien", price := 15
    publishedDate := -1018828800000, isbn := none, genre := "Fiction", description := none
    coverImage := none, stock := 0, createdAt := 4000, updatedAt := 4000 }

/-- The create scenario with the isbn that `dune` holds. -/
def duplicateIsbnInput : BookInput := { hobbitInput with isbn := some "0441013597" }

/-- Two create requests without isbn, with fresh identifiers. -/
def twoCreates : List CreateRequest :=
  [{ now := 4000, newId := "64b000000000000000000004", body := hobbitInput },
   { now := 4001, newId := "64b000000000000000000005", body := paddedHobbitInput }]

/-- A create, an update of the created book, and the deletion of `dune`. -/
def sampleRequests : List Request :=
  [.create 4000 "64b000000000000000000004" hobbitInput,
   .update 5000 "64b000000000000000000004" { shoutedHobbitInput with stock := some 3 },
   .create 6000 "64b000000000000000000001"
     { title := some "dune", author := some "frank herbert", price := some 12
       publishedDate := some (-139000000000) },
   .delete "64b000000000000000000001"]

/-- The created book after the update of the sample requests. -/
def updatedHobbit : Book :=
  { hobbit with title := "the HOBBIT", author := "j tolkien", stock := 3, updatedAt := 5000 }

/-- The create scenario with an empty isbn. -/
def emptyIsbnInput : BookInput := { hobbitInput with isbn := some "" }

/-- The create scenario with a publication date one day after the clock `4000`. -/
def futureInput : BookInput := { hobbitInput with publishedDate := some (4000 + 86400000) }

/-- A connection failure of the store. -/
def connectionRefused : ThrownError :=
  { name := "MongoNetworkError", message := "connect ECONNREFUSED 10.0.0.5:27017" }

/-- A timeout of the store. -/
def selectionTimeout : ThrownError :=
  { name := "MongoNetworkError", message := "Server selection timed out after 30000 ms" }

/-- The filters of the list view after typing `desc` into the search box. -/
def searchDescFilters : Filters := { defaultFilters with search := "desc" }

/-- A state of the list view on its third page. -/
def thirdPage : PaginationState := { currentPage := 3, totalPages := 5, totalBooks := 50, limit := 12 }

/-! ## Ordering lemmas -/

theorem fieldLE_total (a b : FieldVal) : a.le b ∨ b.le a := by
  cases a <;> cases b <;> simp [FieldVal.le, FieldVal.rank] <;> exact le_total _ _

theorem fieldLE_trans {a b c : FieldVal} (h₁ : a.le b) (h₂ : b.le c) : a.le c := by
  cases a <;> cases b <;> cases c <;> simp_all [FieldVal.le, FieldVal.rank] <;>
    exact le_trans h₁ h₂

theorem keyLE_total (sort : String) (a b : Book) : keyLE sort a b ∨ keyLE sort b a :=
  fieldLE_total _ _

theorem keyLE_trans (sort : String) {a b c : Book} (h₁ : keyLE sort a b) (h₂ : keyLE sort b c) :
    keyLE sort a c :=
  fieldLE_trans h₁ h₂

theorem sortRel_total (sort : String) (sortOrder : Int) (a b : Book) :
    sortRel sort sortOrder a b ∨ sortRel sort sortOrder b a := by
  unfold sortRel
  split_ifs
  · exact keyLE_total sort b a
  · exact keyLE_total sort a b

theorem sortRel_trans (sort : String) (sortOrder : Int) {a b c : Book}
    (h₁ : sortRel sort sortOrder a b) (h₂ : sortRel sort sortOrder b c) :
    sortRel sort sortOrder a c := by
  unfold sortRel at *
  split_ifs at *
  · exact keyLE_trans sort h₂ h₁
  · exact keyLE_trans sort h₁ h₂

theorem findSorted_sorted (rt : Runtime) (store : Store) (f : Filter) (sort : String)
    (sortOrder : Int) :
    (findSorted rt store f sort sortOrder).Pairwise (sortRel sort sortOrder) := by
  haveI : IsTotal Book (sortRel sort sortOrder) := ⟨sortRel_total sort sortOrder⟩
  haveI : IsTrans Book (sortRel sort sortOrder) := ⟨fun _ _ _ => sortRel_trans sort sortOrder⟩
  exact List.sorted_insertionSort _ _

theorem findSorted_perm (rt : Runtime) (store : Store) (f : Filter) (sort : String)
    (sortOrder : Int) : (findSorted rt store f sort sortOrder).Perm (store.filter (f.matches rt)) :=
  List.perm_insertionSort _ _

theorem findSorted_length (rt : Runtime) (store : Store) (f : Filter) (sort : String)
    (sortOrder : Int) : (findSorted rt store f sort sortOrder).length = countDocuments rt store f :=
  (findSorted_perm rt store f sort sortOrder).length_eq

/-! ## Pagination lemmas -/

/-- Cutting a list into `n` consecutive windows of width `L` and gluing them
back gives the list, as soon as the windows reach its end. -/
theorem windows_join {α : Type} (L : Nat) :
    ∀ (n : Nat) (l : List α), l.length ≤ n * L →
      ((List.range n).map (fun i => (l.drop (i * L)).take L)).flatten = l := by
  intro n
  induction n with
  | zero =>
    intro l h
    have : l = [] := List.length_eq_zero.mp (by omega)
    simp [this]
  | succ n ih =>
    intro l h
    rw [List.range_succ_eq_map, List.map_cons, List.map_map, List.flatten_cons]
    have hrest : (l.drop L).length ≤ n * L := by
      rw [List.length_drop]
      have : (n + 1) * L = n * L + L := by ring
      omega
    have hfun : ((fun i => (l.drop (i * L)).take L) ∘ Nat.succ)
        = fun i => ((l.drop L).drop (i * L)).take L := by
      funext i
      simp only [Function.comp, List.drop_drop]
      congr 2
      rw [Nat.succ_mul]; omega
    rw [hfun, ih (l.drop L) hrest]
    simp

theorem ceilDiv_mul_ge (total L : Nat) (hL : 0 < L) : total ≤ ((total + L - 1) / L) * L := by
  have h := Nat.div_add_mod (total + L - 1) L
  have hm := Nat.mod_lt (total + L - 1) hL
  have : L * ((total + L - 1) / L) = ((total + L - 1) / L) * L := Nat.mul_comm _ _
  omega

/-- What `getBooks` answers for a page of at least one and a positive limit. -/
theorem getBooks_page (rt : Runtime) (store : Store) (q : ListQuery) (p L : Nat)
    (hp : 1 ≤ p) (hL : 1 ≤ L) (hq : q.limit = some L) :
    getBooks rt store { q with page := some p } =
      .ok (((findSorted rt store (buildQuery q) (q.sort.getD "createdAt")
              (if q.order.getD "desc" = "desc" then -1 else 1)).drop ((p - 1) * L)).take L)
        { currentPage := p
          totalPages := some ((countDocuments rt store (buildQuery q) + L - 1) / L)
          totalBooks := countDocuments rt store (buildQuery q)
          hasNextPage := decide (p < (countDocuments rt store (buildQuery q) + L - 1) / L)
          hasPrevPage := decide (1 < p) } := by
  have hskip : ¬ (((p : Int) - 1) * (L : Int) < 0) := by
    have : (0 : Int) ≤ (p : Int) - 1 := by omega
    have := mul_nonneg this (Int.ofNat_nonneg L)
    omega
  have htn : (((p : Int) - 1) * (L : Int)).toNat = (p - 1) * L := by
    have : ((p : Int) - 1) * (L : Int) = (((p - 1) * L : Nat) : Int) := by
      push_cast [Nat.cast_sub hp]; ring
    rw [this, Int.toNat_ofNat]
  have hL0 : L ≠ 0 := by omega
  simp [getBooks, find, ceilDiv, buildQuery, hq, hskip, htn, hL0]

theorem ceilDiv_eq_ceil (total L : Nat) (hL : 0 < L) :
    (total + L - 1) / L = ⌈(total : ℚ) / (L : ℚ)⌉₊ := by
  have hLq : (0 : ℚ) < (L : ℚ) := by exact_mod_cast hL
  apply eq_of_forall_ge_iff
  intro k
  rw [Nat.ceil_le, div_le_iff₀ hLq, ← Nat.lt_succ_iff, Nat.div_lt_iff_lt_mul hL, Nat.succ_mul]
  constructor
  · intro h
    have : total ≤ k * L := by omega
    exact_mod_cast this
  · intro h
    have h' : total ≤ k * L := by exact_mod_cast h
    omega

/-- An absent page is page one. -/
theorem getBooks_page_absent (rt : Runtime) (store : Store) (q : ListQuery) :
    getBooks rt store { q with page := none } = getBooks rt store { q with page := some 1 } := by
  simp [getBooks, buildQuery]

/-! ## The list handler -/

/-- C1: for a limit `L ≥ 1` (the bound `L ≤ 100` is not needed), the `data`
arrays of pages `1, 2, ..., totalPages` of `getBooks`, glued in that order,
are the full filtered and sorted result: a rearrangement of the matching
records of the store (each exactly once), in sorted order. -/
theorem getBooks_pages_cover (rt : Runtime) (store : Store) (q : ListQuery) (L : Nat)
    (hL : 1 ≤ L) (hq : q.limit = some L) :
    ∃ T : Nat, (getBooks rt store { q with page := some 1 }).totalPages = some T ∧
      ((List.range T).map
          (fun i => (getBooks rt store { q with page := some (i + 1) }).data)).flatten
        = findSorted rt store (buildQuery q) (q.sort.getD "createdAt")
            (if q.order.getD "desc" = "desc" then -1 else 1) ∧
      (findSorted rt store (buildQuery q) (q.sort.getD "createdAt")
          (if q.order.getD "desc" = "desc" then -1 else 1)).Perm
        (store.filter ((buildQuery q).matches rt)) ∧
      (findSorted rt store (buildQuery q) (q.sort.getD "createdAt")
          (if q.order.getD "desc" = "desc" then -1 else 1)).Pairwise
        (sortRel (q.sort.getD "createdAt") (if q.order.getD "desc" = "desc" then -1 else 1)) := by
  refine ⟨(countDocuments rt store (buildQuery q) + L - 1) / L, ?_, ?_,
    findSorted_perm _ _ _ _ _, findSorted_sorted _ _ _ _ _⟩
  · rw [getBooks_page rt store q 1 L le_rfl hL hq]
    rfl
  · have hpages : ∀ i : Nat, (getBooks rt store { q with page := some (i + 1) }).data
        = ((findSorted rt store (buildQuery q) (q.sort.getD "createdAt")
            (if q.order.getD "desc" = "desc" then -1 else 1)).drop (i * L)).take L := by
      intro i
      rw [getBooks_page rt store q (i + 1) L (Nat.succ_le_succ (Nat.zero_le i)) hL hq]
      simp [ListResponse.data]
    simp only [hpages]
    apply windows_join
    rw [findSorted_length]
    exact ceilDiv_mul_ge _ _ hL

/-- C2: for a limit `L` with `1 ≤ L ≤ 100` and any page (absent, or at least
one), `getBooks` reports `totalBooks = N` and `totalPages = ⌈N / L⌉`, where `N`
is the number of records of the store matching the filter; neither value
depends on the page. -/
theorem getBooks_totals (rt : Runtime) (store : Store) (q : ListQuery) (L : Nat)
    (page : Option Nat) (hL : 1 ≤ L) (hL' : L ≤ 100) (hq : q.limit = some L)
    (hp : ∀ p, page = some p → 1 ≤ p) :
    (getBooks rt store { q with page := page }).totalBooks
        = some (store.filter ((buildQuery q).matches rt)).length ∧
      (getBooks rt store { q with page := page }).totalPages
        = some ⌈((store.filter ((buildQuery q).matches rt)).length : ℚ) / (L : ℚ)⌉₊ := by
  have _ := hL'
  have key : ∀ p, 1 ≤ p →
      (getBooks rt store { q with page := some p }).totalBooks
          = some (store.filter ((buildQuery q).matches rt)).length ∧
        (getBooks rt store { q with page := some p }).totalPages
          = some ⌈((store.filter ((buildQuery q).matches rt)).length : ℚ) / (L : ℚ)⌉₊ := by
    intro p h1
    rw [getBooks_page rt store q p L h1 hL hq]
    exact ⟨rfl, congrArg some (ceilDiv_eq_ceil _ _ hL)⟩
  cases page with
  | none => rw [getBooks_page_absent]; exact key 1 le_rfl
  | some p => exact key p (hp p rfl)

theorem data_of_ok {r : ListResponse} {d : List Book} {pg : Pagination}
    (h : r = .ok d pg) : r.data = d := by
  rw [h]; rfl

/-- The page of `getBooks` is cut out of the sorted result. -/
theorem getBooks_data_sublist (rt : Runtime) (store : Store) (q : ListQuery) :
    (getBooks rt store q).data.Sublist
      (findSorted rt store (buildQuery q) (q.sort.getD "createdAt")
        (if q.order.getD "desc" = "desc" then -1 else 1)) := by
  unfold getBooks find
  by_cases hs : (((q.page.getD 1 : Nat) : Int) - 1) * ((q.limit.getD 10 : Nat) : Int) < 0
  · simp [hs, ListResponse.data]
  · simp only [hs, if_false, ListResponse.data]
    split_ifs <;> first
      | exact List.drop_sublist _ _
      | exact (List.take_sublist _ _).trans (List.drop_sublist _ _)

theorem mem_findSorted (rt : Runtime) (store : Store) (f : Filter) (sort : String)
    (sortOrder : Int) (b : Book) :
    b ∈ findSorted rt store f sort sortOrder ↔ b ∈ store ∧ f.matches rt b = true := by
  rw [(findSorted_perm rt store f sort sortOrder).mem_iff, List.mem_filter]

/-- What `getBooks` answers when the page is absent or at least one. -/
theorem getBooks_ok (rt : Runtime) (store : Store) (q : ListQuery)
    (hp : ∀ p, q.page = some p → 1 ≤ p) :
    ∃ pg, getBooks rt store q =
      .ok (if q.limit.getD 10 = 0 then
            (findSorted rt store (buildQuery q) (q.sort.getD "createdAt")
              (if q.order.getD "desc" = "desc" then -1 else 1)).drop
                ((q.page.getD 1 - 1) * q.limit.getD 10)
          else
            ((findSorted rt store (buildQuery q) (q.sort.getD "createdAt")
              (if q.order.getD "desc" = "desc" then -1 else 1)).drop
                ((q.page.getD 1 - 1) * q.limit.getD 10)).take (q.limit.getD 10)) pg := by
  have h1 : 1 ≤ q.page.getD 1 := by
    cases h : q.page with
    | none => simp
    | some p => simpa using hp p h
  have hskip : ¬ (((q.page.getD 1 : Nat) : Int) - 1) * ((q.limit.getD 10 : Nat) : Int) < 0 := by
    have : (0 : Int) ≤ ((q.page.getD 1 : Nat) : Int) - 1 := by omega
    have := mul_nonneg this (Int.ofNat_nonneg (q.limit.getD 10))
    omega
  have htn : ((((q.page.getD 1 : Nat) : Int) - 1) * ((q.limit.getD 10 : Nat) : Int)).toNat
      = (q.page.getD 1 - 1) * q.limit.getD 10 := by
    have : (((q.page.getD 1 : Nat) : Int) - 1) * ((q.limit.getD 10 : Nat) : Int)
        = (((q.page.getD 1 - 1) * q.limit.getD 10 : Nat) : Int) := by
      push_cast [Nat.cast_sub h1]; ring
    rw [this, Int.toNat_ofNat]
  unfold getBooks find
  simp only [hskip, if_false, htn]
  exact ⟨_, rfl⟩

/-- C3 (the code at the failing input): for `order=sideways` and for
`limit=1000` the validators of the route record an error, and the handler
still builds and runs the query and answers with the page. -/
theorem listRoute_invalid_not_rejected :
    listRoute asciiRuntime sampleStore { order := some "sideways" }
        = ([⟨"order", "Order must be either asc or desc"⟩],
            .ok [dune, gaudyNight, theMoonstone]
              { currentPage := 1, totalPages := some 1, totalBooks := 3
                hasNextPage := false, hasPrevPage := false }) ∧
      listRoute asciiRuntime sampleStore { limit := some 1000 }
        = ([⟨"limit", "Limit must be between 1 and 100"⟩],
            .ok [theMoonstone, gaudyNight, dune]
              { currentPage := 1, totalPages := some 1, totalBooks := 3
                hasNextPage := false, hasPrevPage := false }) := by
  constructor <;> rfl

/-- C4: every record of the page returned by `getBooks` has a price of at
least the supplied `minPrice` and at most the supplied `maxPrice`; and the
`query` accepts a record exactly when the same request without the two price
parameters accepts it and its price lies within the bounds supplied, so that
a bound that is not supplied is not applied. -/
theorem getBooks_price_bounds (rt : Runtime) (store : Store) (q : ListQuery) :
    (∀ b ∈ (getBooks rt store q).data,
        (∀ m, q.minPrice = some m → m ≤ b.price) ∧ (∀ M, q.maxPrice = some M → b.price ≤ M)) ∧
      (∀ b : Book, (buildQuery q).matches rt b = true ↔
        ((buildQuery { q with minPrice := none, maxPrice := none }).matches rt b = true ∧
          (∀ m, q.minPrice = some m → m ≤ b.price) ∧
          (∀ M, q.maxPrice = some M → b.price ≤ M))) := by
  have hchar : ∀ b : Book, (buildQuery q).matches rt b = true ↔
      ((buildQuery { q with minPrice := none, maxPrice := none }).matches rt b = true ∧
        (∀ m, q.minPrice = some m → m ≤ b.price) ∧
        (∀ M, q.maxPrice = some M → b.price ≤ M)) := by
    intro b
    cases hmin : q.minPrice <;> cases hmax : q.maxPrice <;>
      simp [Filter.matches, buildQuery, hmin, hmax, and_assoc]
  refine ⟨fun b hb => ?_, hchar⟩
  have hmem := (getBooks_data_sublist rt store q).subset hb
  rw [mem_findSorted] at hmem
  exact ((hchar b).mp hmem.2).2

/-- C5: for a request with a non-empty genre `g`, a limit `L ≥ 1` and a page
that is absent or at least one, `getBooks` answers with a page of at most
`L` records, all of genre `g`; with order `asc` the records are non-decreasing
in the sort field, with order `desc` or no order they are non-increasing. -/
theorem getBooks_genre_sorted (rt : Runtime) (store : Store) (q : ListQuery) (g : String)
    (L : Nat) (hg : q.genre = some g) (hg' : g ≠ "") (hq : q.limit = some L) (hL : 1 ≤ L)
    (hp : ∀ p, q.page = some p → 1 ≤ p) :
    ∃ data pg, getBooks rt store q = .ok data pg ∧ data.length ≤ L ∧
      (∀ b ∈ data, b.genre = g) ∧
      (q.order = some "asc" →
        data.Pairwise (fun a b => keyLE (q.sort.getD "createdAt") a b)) ∧
      ((q.order = some "desc" ∨ q.order = none) →
        data.Pairwise (fun a b => keyLE (q.sort.getD "createdAt") b a)) := by
  obtain ⟨pg, hpg⟩ := getBooks_ok rt store q hp
  have hL0 : L ≠ 0 := by omega
  simp only [hq, Option.getD_some, hL0, if_false] at hpg
  have hdata := data_of_ok hpg
  have hsub := getBooks_data_sublist rt store q
  rw [hdata] at hsub
  refine ⟨_, pg, hpg, ?_, ?_, ?_, ?_⟩
  · exact (List.length_take_le _ _)
  · intro b hb
    have hmem := hsub.subset hb
    rw [mem_findSorted] at hmem
    have := hmem.2
    simp [Filter.matches, buildQuery, hg, truthy, hg'] at this
    exact this.1.1.1
  · intro ho
    have hs := (findSorted_sorted rt store (buildQuery q) (q.sort.getD "createdAt")
      (if q.order.getD "desc" = "desc" then -1 else 1)).sublist hsub
    refine hs.imp ?_
    intro a b hab
    simpa [sortRel, ho] using hab
  · intro ho
    have hs := (findSorted_sorted rt store (buildQuery q) (q.sort.getD "createdAt")
      (if q.order.getD "desc" = "desc" then -1 else 1)).sublist hsub
    refine hs.imp ?_
    intro a b hab
    rcases ho with ho | ho <;> simpa [sortRel, ho] using hab

/-- C6: for a page `p` (absent: 1) of at least one and a limit `l` (absent:
10), `getBooks` skips the first `(p - 1) * l` records of the sorted result and
returns the `l` that follow (all that follow when `l` is `0`); a request with
neither parameter returns the first 10 records of the sorted result. -/
theorem getBooks_skip (rt : Runtime) (store : Store) (q : ListQuery)
    (hp : ∀ p, q.page = some p → 1 ≤ p) :
    (getBooks rt store q).data =
        (if q.limit.getD 10 = 0 then
          (findSorted rt store (buildQuery q) (q.sort.getD "createdAt")
            (if q.order.getD "desc" = "desc" then -1 else 1)).drop
              ((q.page.getD 1 - 1) * q.limit.getD 10)
        else
          ((findSorted rt store (buildQuery q) (q.sort.getD "createdAt")
            (if q.order.getD "desc" = "desc" then -1 else 1)).drop
              ((q.page.getD 1 - 1) * q.limit.getD 10)).take (q.limit.getD 10)) ∧
      (∃ pg, getBooks rt store q = .ok (getBooks rt store q).data pg) ∧
      (q.page = none → q.limit = none →
        (getBooks rt store q).data =
          (findSorted rt store (buildQuery q) (q.sort.getD "createdAt")
            (if q.order.getD "desc" = "desc" then -1 else 1)).take 10) := by
  obtain ⟨pg, hpg⟩ := getBooks_ok rt store q hp
  have hdata := data_of_ok hpg
  refine ⟨hdata, ⟨pg, ?_⟩, ?_⟩
  · rw [hdata]; exact hpg
  · intro h1 h2
    rw [hdata]
    simp [h1, h2]

/-! ## Create and update -/

theorem trim_trim (s : String) : trim (trim s) = trim s := by
  unfold trim
  congr 1
  show ((((s.data.dropWhile isWhiteSpace).rdropWhile isWhiteSpace).dropWhile isWhiteSpace).rdropWhile
    isWhiteSpace) = _
  have hd : ((s.data.dropWhile isWhiteSpace).rdropWhile isWhiteSpace).dropWhile isWhiteSpace
      = (s.data.dropWhile isWhiteSpace).rdropWhile isWhiteSpace := by
    rw [List.dropWhile_eq_self_iff]
    intro hl
    have hpre : (s.data.dropWhile isWhiteSpace).rdropWhile isWhiteSpace <+:
        s.data.dropWhile isWhiteSpace := List.rdropWhile_prefix _ _
    have hl' : 0 < (s.data.dropWhile isWhiteSpace).length := lt_of_lt_of_le hl hpre.length_le
    have hget : ((s.data.dropWhile isWhiteSpace).rdropWhile isWhiteSpace)[0]
        = (s.data.dropWhile isWhiteSpace)[0] := hpre.getElem hl
    have := List.dropWhile_get_zero_not isWhiteSpace s.data hl'
    simp only [List.get_eq_getElem] at this ⊢
    rw [hget]
    exact this
  rw [hd, List.rdropWhile_idempotent]

/-- A body that passes `validateBook` has a non-empty trimmed title and author. -/
theorem validateBook_nil (rt : Runtime) (body : BookInput) (h : validateBook rt body = []) :
    trim (body.title.getD "") ≠ "" ∧ trim (body.author.getD "") ≠ "" := by
  unfold validateBook at h
  simp only [List.append_eq_nil, sanitizeBook, Option.getD_some] at h
  obtain ⟨⟨⟨⟨⟨⟨⟨⟨ht, ha⟩, _⟩, _⟩, _⟩, _⟩, _⟩, _⟩, _⟩ := h
  constructor
  · intro he
    have h0 : (trim (body.title.getD "")).length = 0 := by rw [he]; rfl
    simp [h0] at ht
  · intro he
    have h0 : (trim (body.author.getD "")).length = 0 := by rw [he]; rfl
    simp [h0] at ha

/-- C7 (counterexample): it is not the case that every successful create
stores the first character of the input title uppercased followed by the
remainder lowercased: a title with a space in front is stored trimmed. -/
theorem create_title_input_not_capitalized :
    ¬ ∀ (rt : Runtime) (now : Int) (newId : String) (store : Store) (body : BookInput)
        (t : String) (st : Nat) (msg : String) (b : Book),
        body.title = some t →
        (postRoute rt now newId store body).1 = .success st msg b →
        b.title = capitalize rt t := by
  intro h
  have := h asciiRuntime 4000 "64b000000000000000000004" sampleStore paddedHobbitInput
    " the hobbit" 201 "Book created successfully" hobbit rfl rfl
  exact absurd this (by decide)

/-- C7 (amended): on every successful create with input title `t` and author
`a` the stored title is the first character of the trimmed `t` uppercased
followed by the remainder of the trimmed `t` lowercased, likewise for the
author, and the book so normalized is the one added to the store. -/
theorem create_normalizes_trimmed (rt : Runtime) (now : Int) (newId : String) (store : Store)
    (body : BookInput) (t a : String) (st : Nat) (msg : String) (b : Book)
    (ht : body.title = some t) (ha : body.author = some a)
    (h : (postRoute rt now newId store body).1 = .success st msg b) :
    b.title = capitalize rt (trim t) ∧ b.author = capitalize rt (trim a) ∧
      (postRoute rt now newId store body).2 = store ++ [b] := by
  unfold postRoute addBook at h ⊢
  by_cases hv : validateBook rt body = []
  · obtain ⟨hne1, hne2⟩ := validateBook_nil rt body hv
    simp only [ht, ha, Option.getD_some] at hne1 hne2
    simp only [hv, ne_eq, not_true_eq_false, if_false, sanitizeBook, applySetters, ht, ha,
      Option.getD_some, Option.map_some', trim_trim] at h ⊢
    cases hprice : body.price with
    | none => simp [hprice] at h
    | some p =>
      cases hdate : body.publishedDate with
      | none => simp [hprice, hdate] at h
      | some pd =>
        simp only [hprice, hdate] at h ⊢
        split_ifs at h ⊢ with h1 h2
        obtain ⟨-, -, rfl⟩ := h
        simp [preSave, hne1, hne2]
  · simp [hv] at h

/-- C7 (amended), at the create scenario: `the hobbit` / `j tolkien` are
stored as `The hobbit` / `J tolkien`. -/
theorem create_normalizes_trimmed_witness :
    (hobbitInput.title = some "the hobbit" ∧ hobbitInput.author = some "j tolkien" ∧
      (postRoute asciiRuntime 4000 "64b000000000000000000004" sampleStore hobbitInput).1
        = .success 201 "Book created successfully" hobbit) ∧
    (hobbit.title = capitalize asciiRuntime (trim "the hobbit") ∧
      hobbit.author = capitalize asciiRuntime (trim "j tolkien") ∧
      (postRoute asciiRuntime 4000 "64b000000000000000000004" sampleStore hobbitInput).2
        = sampleStore ++ [hobbit]) :=
  ⟨⟨rfl, rfl, rfl⟩,
    create_normalizes_trimmed asciiRuntime 4000 "64b000000000000000000004" sampleStore
      hobbitInput "the hobbit" "j tolkien" 201 "Book created successfully" hobbit rfl rfl rfl⟩

/-- C8 (the code at the failing input): a valid update of a stored book with
title `the HOBBIT` succeeds and persists the title `the HOBBIT` as sent, not
`The hobbit`; the author `j tolkien` is persisted as sent too. -/
theorem update_title_not_normalized :
    putRoute asciiRuntime 5000 sampleStore "64b000000000000000000001" shoutedHobbitInput
      = (.success 200 "Book updated successfully"
          { dune with
            title := "the HOBBIT", author := "j tolkien", price := 15
            publishedDate := -1018828800000, genre := "Fiction", updatedAt := 5000 },
         [{ dune with
            title := "the HOBBIT", author := "j tolkien", price := 15
            publishedDate := -1018828800000, genre := "Fiction", updatedAt := 5000 },
          gaudyNight, theMoonstone]) := by
  rfl

/-- C9 (counterexample): an update of a stored book with the empty patch does
not succeed: it is answered with status 400 and the errors of `validateBook`. -/
theorem update_empty_patch_rejected :
    (putRoute asciiRuntime 5000 sampleStore "64b000000000000000000001" {}).1
      = .validationError
          [⟨"title", "Title is required and must be between 1 and 200 characters"⟩,
           ⟨"author", "Author is required and must be between 1 and 100 characters"⟩,
           ⟨"price", "Price must be a number between 0 and 10,000"⟩,
           ⟨"publishedDate", "Published date must be a valid date"⟩] ∧
      (putRoute asciiRuntime 5000 sampleStore "64b000000000000000000001" {}).1.book = none := by
  constructor <;> rfl

/-- C9 (amended): an update request with the empty patch, on the id of a
stored book or on any other id, is rejected with status 400 as a validation
error that names `title`, and leaves the store, so every field of every book
(`updatedAt` included), unchanged. -/
theorem update_empty_patch_unchanged (rt : Runtime) (now : Int) (store : Store) (id : String) :
    (putRoute rt now store id {}).1.status = 400 ∧
      (∃ details, (putRoute rt now store id {}).1 = .validationError details ∧
        (⟨"title", "Title is required and must be between 1 and 200 characters"⟩ : FieldError)
          ∈ details) ∧
      (putRoute rt now store id {}).2 = store := by
  have hv : validateBook rt {} =
      [⟨"title", "Title is required and must be between 1 and 200 characters"⟩,
       ⟨"author", "Author is required and must be between 1 and 100 characters"⟩,
       ⟨"price", "Price must be a number between 0 and 10,000"⟩,
       ⟨"publishedDate", "Published date must be a valid date"⟩] := by
    rfl
  have hne : validateId id ++ validateBook rt {} ≠ [] := by
    rw [hv]; simp
  unfold putRoute updateBook
  rw [if_pos hne]
  refine ⟨rfl, ⟨_, rfl, ?_⟩, rfl⟩
  rw [hv]
  simp

/-- C10 (the code at the failing input): a create request that is valid but
for a `publishedDate` one day after the clock is answered with status 500 and
error `Failed to create book` (not 400); the message names `publishedDate`
and the store is unchanged. -/
theorem create_future_date_status :
    postRoute asciiRuntime 4000 "64b000000000000000000004" sampleStore
        { hobbitInput with publishedDate := some (4000 + 86400000) }
      = (.failure 500 "Failed to create book"
          "Book validation failed: publishedDate: Published date cannot be in the future",
         sampleStore) := by
  rfl

/-! ## The theorems of the list handler at sample requests -/

/-- C1 at the sample collection with two records per page. -/
theorem getBooks_pages_cover_witness :
    (1 ≤ 2 ∧ twoPerPage.limit = some 2) ∧
    ∃ T : Nat, (getBooks asciiRuntime sampleStore { twoPerPage with page := some 1 }).totalPages
        = some T ∧
      ((List.range T).map (fun i =>
          (getBooks asciiRuntime sampleStore { twoPerPage with page := some (i + 1) }).data)).flatten
        = findSorted asciiRuntime sampleStore (buildQuery twoPerPage)
            (twoPerPage.sort.getD "createdAt")
            (if twoPerPage.order.getD "desc" = "desc" then -1 else 1) ∧
      (findSorted asciiRuntime sampleStore (buildQuery twoPerPage)
          (twoPerPage.sort.getD "createdAt")
          (if twoPerPage.order.getD "desc" = "desc" then -1 else 1)).Perm
        (sampleStore.filter ((buildQuery twoPerPage).matches asciiRuntime)) ∧
      (findSorted asciiRuntime sampleStore (buildQuery twoPerPage)
          (twoPerPage.sort.getD "createdAt")
          (if twoPerPage.order.getD "desc" = "desc" then -1 else 1)).Pairwise
        (sortRel (twoPerPage.sort.getD "createdAt")
          (if twoPerPage.order.getD "desc" = "desc" then -1 else 1)) :=
  ⟨⟨by decide, rfl⟩,
    getBooks_pages_cover asciiRuntime sampleStore twoPerPage 2 (by decide) rfl⟩

/-- C2 at the sample collection with two records per page, second page. -/
theorem getBooks_totals_witness :
    (1 ≤ 2 ∧ 2 ≤ 100 ∧ twoPerPage.limit = some 2 ∧ ∀ p, some 2 = some p → 1 ≤ p) ∧
    ((getBooks asciiRuntime sampleStore { twoPerPage with page := some 2 }).totalBooks
        = some (sampleStore.filter ((buildQuery twoPerPage).matches asciiRuntime)).length ∧
      (getBooks asciiRuntime sampleStore { twoPerPage with page := some 2 }).totalPages
        = some ⌈((sampleStore.filter
            ((buildQuery twoPerPage).matches asciiRuntime)).length : ℚ) / ((2 : ℕ) : ℚ)⌉₊) :=
  ⟨⟨by decide, by decide, rfl, fun p h => by cases h; decide⟩,
    getBooks_totals asciiRuntime sampleStore twoPerPage 2 (some 2) (by decide) (by decide) rfl
      (fun p h => by cases h; decide)⟩

/-- C5 at the list scenario. -/
theorem getBooks_genre_sorted_witness :
    (mysteryByPrice.genre = some "Mystery" ∧ "Mystery" ≠ "" ∧ mysteryByPrice.limit = some 5 ∧
      1 ≤ 5 ∧ ∀ p, mysteryByPrice.page = some p → 1 ≤ p) ∧
    ∃ data pg, getBooks asciiRuntime sampleStore mysteryByPrice = .ok data pg ∧
      data.length ≤ 5 ∧ (∀ b ∈ data, b.genre = "Mystery") ∧
      (mysteryByPrice.order = some "asc" →
        data.Pairwise (fun a b => keyLE (mysteryByPrice.sort.getD "createdAt") a b)) ∧
      ((mysteryByPrice.order = some "desc" ∨ mysteryByPrice.order = none) →
        data.Pairwise (fun a b => keyLE (mysteryByPrice.sort.getD "createdAt") b a)) :=
  ⟨⟨rfl, by decide, rfl, by decide, fun p h => by cases h; decide⟩,
    getBooks_genre_sorted asciiRuntime sampleStore mysteryByPrice "Mystery" 5 rfl (by decide) rfl
      (by decide) (fun p h => by cases h; decide)⟩

/-- C6 at the sample collection with two records per page, second page. -/
theorem getBooks_skip_witness :
    (∀ p, ({ twoPerPage with page := some 2 } : ListQuery).page = some p → 1 ≤ p) ∧
    (getBooks asciiRuntime sampleStore { twoPerPage with page := some 2 }).data = [dune] :=
  ⟨fun p h => by cases h; decide,
    ((getBooks_skip asciiRuntime sampleStore { twoPerPage with page := some 2 }
      (fun p h => by cases h; decide)).1).trans (by rfl)⟩

/-! ## Read, create and delete -/

/-- C11 (the code at the failing input): for the id `abc`, which `validateId`
refuses, the read and the delete handler answer with status 500 (the id does
not cast), not 400; only the update handler answers 400. -/
theorem malformed_id_status :
    getRoute sampleStore "abc"
        = ([⟨"id", "Invalid book ID format"⟩],
            .failure 500 "Failed to fetch book" "Cast to ObjectId failed") ∧
      deleteRoute sampleStore "abc"
        = ([⟨"id", "Invalid book ID format"⟩],
            .failure 500 "Failed to delete book" "Cast to ObjectId failed", sampleStore) ∧
      (putRoute asciiRuntime 5000 sampleStore "abc" hobbitInput).1.status = 400 := by
  refine ⟨rfl, rfl, rfl⟩

theorem not_isWhiteSpace_of_isDigit (c : Char) (h : c.isDigit = true) : isWhiteSpace c = false := by
  have h48 : 48 ≤ c.toNat := by
    have : (48 : UInt32) ≤ c.val := by
      simp only [Char.isDigit, Bool.and_eq_true, decide_eq_true_eq] at h
      exact h.1
    exact this
  have h57 : c.toNat ≤ 57 := by
    have : c.val ≤ (57 : UInt32) := by
      simp only [Char.isDigit, Bool.and_eq_true, decide_eq_true_eq] at h
      exact h.2
    exact this
  simp only [isWhiteSpace, Bool.or_eq_false_iff, decide_eq_false_iff_not, Bool.and_eq_false_iff]
  omega

theorem dropWhile_eq_self_of_forall {α : Type} (p : α → Bool) (l : List α)
    (h : ∀ x ∈ l, p x = false) : l.dropWhile p = l := by
  cases l with
  | nil => rfl
  | cons a t => simp [List.dropWhile, h a (List.mem_cons_self a t)]

theorem rdropWhile_eq_self_of_forall {α : Type} (p : α → Bool) (l : List α)
    (h : ∀ x ∈ l, p x = false) : l.rdropWhile p = l := by
  rw [List.rdropWhile_eq_self_iff]
  intro hl
  simp [h _ (List.getLast_mem hl)]

/-- A text that matches the isbn pattern is left as it is by `trim`. -/
theorem trim_of_isbnPattern (i : String) (h : isbnPattern i = true) : trim i = i := by
  have hall : ∀ c ∈ i.data, isWhiteSpace c = false := by
    intro c hc
    simp only [isbnPattern, Bool.and_eq_true, List.all_eq_true] at h
    exact not_isWhiteSpace_of_isDigit c (h.2 c hc)
  unfold trim
  rw [dropWhile_eq_self_of_forall _ _ hall, rdropWhile_eq_self_of_forall _ _ hall]

/-- What a body that passes `validateBook` holds in its checked fields. -/
theorem validateBook_nil_fields (rt : Runtime) (body : BookInput)
    (h : validateBook rt body = []) :
    (∃ p, body.price = some p ∧ 0 ≤ p ∧ p ≤ 10000) ∧ (∃ d, body.publishedDate = some d) ∧
      (∀ i, body.isbn = some i → isbnPattern i = true) ∧
      (∀ n, body.stock = some n → 0 ≤ n) := by
  unfold validateBook at h
  simp only [List.append_eq_nil, sanitizeBook, Option.getD_some] at h
  obtain ⟨⟨⟨⟨⟨⟨⟨⟨_, _⟩, hp⟩, hd⟩, hi⟩, _⟩, _⟩, _⟩, hs⟩ := h
  refine ⟨?_, ?_, ?_, ?_⟩
  · cases hpr : body.price with
    | none => simp [hpr] at hp
    | some p =>
      refine ⟨p, rfl, ?_⟩
      by_contra hc
      simp [hpr, hc] at hp
  · cases hda : body.publishedDate with
    | none => simp [hda] at hd
    | some d => exact ⟨d, rfl⟩
  · intro i hib
    by_contra hc
    simp [hib, hc] at hi
  · intro n hn
    by_contra hc
    simp only [hn] at hs
    rw [if_neg (fun hh => hc hh.2)] at hs
    simp at hs

theorem map_trim_isbn (rt : Runtime) (body : BookInput) (h : validateBook rt body = []) :
    body.isbn.map trim = body.isbn := by
  cases hi : body.isbn with
  | none => rfl
  | some i =>
    have := (validateBook_nil_fields rt body h).2.2.1 i hi
    simp [trim_of_isbnPattern i this]

/-- What `POST /api/books` does with a body that passes the validators of the
route and of the schema: it builds one document from the body and either
refuses it as a duplicate or stores it. -/
theorem postRoute_valid (rt : Runtime) (now : Int) (newId : String) (store : Store)
    (body : BookInput) (hv : validateBook rt body = [])
    (hs : schemaErrors now false (applySetters (sanitizeBook body)) = []) :
    ∃ b : Book,
      (b._id = newId ∧ b.title = capitalize rt (trim (body.title.getD "")) ∧
        b.author = capitalize rt (trim (body.author.getD "")) ∧
        some b.price = body.price ∧ some b.publishedDate = body.publishedDate ∧
        b.isbn = body.isbn ∧ b.genre = body.genre.getD "Other" ∧
        b.description = body.description ∧ b.coverImage = body.coverImage ∧
        b.stock = body.stock.getD 0 ∧ b.createdAt = now ∧ b.updatedAt = now) ∧
      (0 ≤ b.price ∧ b.price ≤ 10000 ∧ 0 ≤ b.stock) ∧
      postRoute rt now newId store body =
        if (idCollides store newId || isbnCollides store newId b.isbn) = true then
          (.failure 400 "Duplicate Error" "A book with this ISBN already exists", store)
        else (.success 201 "Book created successfully" b, store ++ [b]) := by
  obtain ⟨hne1, hne2⟩ := validateBook_nil rt body hv
  obtain ⟨⟨p, hprice, hp0, hp1⟩, ⟨pd, hdate⟩, _, hstock⟩ := validateBook_nil_fields rt body hv
  have hisbn := map_trim_isbn rt body hv
  have hst : 0 ≤ body.stock.getD 0 := by
    cases hso : body.stock with
    | none => simp
    | some n => simpa using hstock n hso
  unfold postRoute addBook
  simp only [sanitizeBook, applySetters, Option.map_some', trim_trim, hprice, hdate, hisbn] at hs ⊢
  simp only [hv, hs, ne_eq, not_true_eq_false, if_false]
  refine ⟨_, ⟨?_, ?_, ?_, ?_, ?_, ?_, ?_, ?_, ?_, ?_, ?_, ?_⟩, ⟨?_, ?_, ?_⟩, rfl⟩ <;>
    simp [preSave, hne1, hne2, hp0, hp1, hst]

theorem find?_id_none_of_not_collides (store : Store) (id : String)
    (h : idCollides store id = false) :
    store.find? (fun b => decide (b._id = id)) = none := by
  rw [List.find?_eq_none]
  intro x hx hp
  have : idCollides store id = true := by
    unfold idCollides
    rw [List.any_eq_true]
    exact ⟨x, hx, hp⟩
  rw [h] at this
  exact Bool.noConfusion this

/-- C12: for every book input that passes the validators of the route and of
the schema, with a fresh well-formed identifier and no isbn collision, the
create succeeds with status 201 and a read on the returned id answers the
stored record; its fields are those of the input (genre `Other` and stock `0`
when the input has none), except that title and author are trimmed and
case-normalized and that id, createdAt and updatedAt are assigned by the
server. -/
theorem create_then_getById (rt : Runtime) (now : Int) (newId : String) (store : Store)
    (body : BookInput) (hv : validateBook rt body = [])
    (hs : schemaErrors now false (applySetters (sanitizeBook body)) = [])
    (hid : castsToObjectId newId = true) (hcanon : canonicalId newId = newId)
    (hfresh : idCollides store newId = false)
    (hisbn : isbnCollides store newId body.isbn = false) :
    ∃ b : Book,
      postRoute rt now newId store body
        = (.success 201 "Book created successfully" b, store ++ [b]) ∧
      getBookById (postRoute rt now newId store body).2 b._id = .found b ∧
      b.title = capitalize rt (trim (body.title.getD "")) ∧
      b.author = capitalize rt (trim (body.author.getD "")) ∧
      some b.price = body.price ∧ some b.publishedDate = body.publishedDate ∧
      b.isbn = body.isbn ∧ b.genre = body.genre.getD "Other" ∧
      b.description = body.description ∧ b.coverImage = body.coverImage ∧
      b.stock = body.stock.getD 0 ∧
      b._id = newId ∧ b.createdAt = now ∧ b.updatedAt = now := by
  obtain ⟨b, ⟨h1, h2, h3, h4, h5, h6, h7, h8, h9, h10, h11, h12⟩, _, hpost⟩ :=
    postRoute_valid rt now newId store body hv hs
  rw [h6, hfresh, hisbn] at hpost
  simp only [Bool.or_self, Bool.false_eq_true, if_false] at hpost
  refine ⟨b, hpost, ?_, h2, h3, h4, h5, h6, h7, h8, h9, h10, h1, h11, h12⟩
  rw [hpost, h1]
  unfold getBookById
  simp only [hid, hcanon, Bool.not_true, Bool.false_eq_true, if_false, List.find?_append,
    find?_id_none_of_not_collides store newId hfresh, Option.none_or]
  simp [List.find?, h1]

/-- C12 at the create scenario. -/
theorem create_then_getById_witness :
    (validateBook asciiRuntime hobbitInput = [] ∧
      schemaErrors 4000 false (applySetters (sanitizeBook hobbitInput)) = [] ∧
      castsToObjectId "64b000000000000000000004" = true ∧
      canonicalId "64b000000000000000000004" = "64b000000000000000000004" ∧
      idCollides sampleStore "64b000000000000000000004" = false ∧
      isbnCollides sampleStore "64b000000000000000000004" hobbitInput.isbn = false) ∧
    ∃ b : Book,
      postRoute asciiRuntime 4000 "64b000000000000000000004" sampleStore hobbitInput
        = (.success 201 "Book created successfully" b, sampleStore ++ [b]) ∧
      getBookById
          (postRoute asciiRuntime 4000 "64b000000000000000000004" sampleStore hobbitInput).2 b._id
        = .found b ∧
      b.title = capitalize asciiRuntime (trim (hobbitInput.title.getD "")) ∧
      b.author = capitalize asciiRuntime (trim (hobbitInput.author.getD "")) ∧
      some b.price = hobbitInput.price ∧ some b.publishedDate = hobbitInput.publishedDate ∧
      b.isbn = hobbitInput.isbn ∧ b.genre = hobbitInput.genre.getD "Other" ∧
      b.description = hobbitInput.description ∧ b.coverImage = hobbitInput.coverImage ∧
      b.stock = hobbitInput.stock.getD 0 ∧
      b._id = "64b000000000000000000004" ∧ b.createdAt = 4000 ∧ b.updatedAt = 4000 :=
  ⟨⟨rfl, rfl, rfl, rfl, rfl, rfl⟩,
    create_then_getById asciiRuntime 4000 "64b000000000000000000004" sampleStore hobbitInput
      rfl rfl rfl rfl rfl rfl⟩

/-- C13: when the store holds a book with isbn `i`, a create request with
the same isbn `i` that passes the validators of the route and of the schema
(so `i` is non-empty) fails with status 400 and error `Duplicate Error`, and
the store is left unchanged. -/
theorem create_duplicate_isbn (rt : Runtime) (now : Int) (newId : String) (store : Store)
    (body : BookInput) (i : String) (b0 : Book) (hmem : b0 ∈ store) (hb0 : b0.isbn = some i)
    (hbody : body.isbn = some i) (hv : validateBook rt body = [])
    (hs : schemaErrors now false (applySetters (sanitizeBook body)) = []) :
    postRoute rt now newId store body
      = (.failure 400 "Duplicate Error" "A book with this ISBN already exists", store) := by
  obtain ⟨b, ⟨_, _, _, _, _, h6, _⟩, _, hpost⟩ := postRoute_valid rt now newId store body hv hs
  have hcoll : (idCollides store newId || isbnCollides store newId b.isbn) = true := by
    rw [h6, hbody]
    by_cases hid : b0._id = newId
    · have : idCollides store newId = true := by
        unfold idCollides
        rw [List.any_eq_true]
        exact ⟨b0, hmem, by simp [hid]⟩
      simp [this]
    · have : isbnCollides store newId (some i) = true := by
        unfold isbnCollides
        rw [List.any_eq_true]
        exact ⟨b0, hmem, by simp [hid, hb0]⟩
      simp [this]
  rw [hpost, if_pos hcoll]

/-- C13 at the sample collection, with the isbn of `dune`. -/
theorem create_duplicate_isbn_witness :
    (dune ∈ sampleStore ∧ dune.isbn = some "0441013597" ∧
      duplicateIsbnInput.isbn = some "0441013597" ∧
      validateBook asciiRuntime duplicateIsbnInput = [] ∧
      schemaErrors 4000 false (applySetters (sanitizeBook duplicateIsbnInput)) = []) ∧
    postRoute asciiRuntime 4000 "64b000000000000000000004" sampleStore duplicateIsbnInput
      = (.failure 400 "Duplicate Error" "A book with this ISBN already exists", sampleStore) :=
  ⟨⟨List.mem_cons_self _ _, rfl, rfl, rfl, rfl⟩,
    create_duplicate_isbn asciiRuntime 4000 "64b000000000000000000004" sampleStore
      duplicateIsbnInput "0441013597" dune (List.mem_cons_self _ _) rfl rfl rfl rfl⟩

/-- C14: in a sequence of create requests that all omit isbn, pass the
validators of the route and of the schema, and carry fresh identifiers,
every request is answered with status 201, whatever the store holds at the
start. -/
theorem createAll_without_isbn (rt : Runtime) (reqs : List CreateRequest) :
    ∀ (store : Store),
      (∀ r ∈ reqs, r.body.isbn = none ∧ validateBook rt r.body = [] ∧
        schemaErrors r.now false (applySetters (sanitizeBook r.body)) = []) →
      (store.map (fun b => b._id) ++ reqs.map (fun r => r.newId)).Nodup →
      (createAll rt store reqs).1.length = reqs.length ∧
        ∀ resp ∈ (createAll rt store reqs).1, resp.status = 201 := by
  induction reqs with
  | nil =>
    intro store _ _
    simp [createAll]
  | cons r rs ih =>
    intro store hreq hnd
    obtain ⟨hnone, hv, hs⟩ := hreq r (List.mem_cons_self r rs)
    obtain ⟨b, ⟨h1, _, _, _, _, h6, _⟩, _, hpost⟩ :=
      postRoute_valid rt r.now r.newId store r.body hv hs
    have hfresh : idCollides store r.newId = false := by
      cases hc : idCollides store r.newId with
      | false => rfl
      | true =>
        exfalso
        unfold idCollides at hc
        rw [List.any_eq_true] at hc
        obtain ⟨x, hx, hxid⟩ := hc
        have hxid' : x._id = r.newId := by simpa using hxid
        rw [List.nodup_append] at hnd
        exact hnd.2.2 (List.mem_map.mpr ⟨x, hx, hxid'⟩) (by simp)
    rw [h6, hnone, hfresh] at hpost
    simp only [isbnCollides, Bool.or_self, Bool.false_eq_true, if_false] at hpost
    have hnd' : ((store ++ [b]).map (fun b => b._id) ++ rs.map (fun r => r.newId)).Nodup := by
      simpa [h1, List.append_assoc] using hnd
    obtain ⟨ihlen, ihall⟩ := ih (store ++ [b])
      (fun r' hr' => hreq r' (List.mem_cons_of_mem r hr')) hnd'
    unfold createAll
    simp only [hpost, List.length_cons, ihlen, List.mem_cons, true_and]
    intro resp hresp
    rcases hresp with rfl | hresp
    · rfl
    · exact ihall resp hresp

/-- C14 at two create requests without isbn on the sample collection. -/
theorem createAll_without_isbn_witness :
    ((∀ r ∈ twoCreates, r.body.isbn = none ∧ validateBook asciiRuntime r.body = [] ∧
        schemaErrors r.now false (applySetters (sanitizeBook r.body)) = []) ∧
      (sampleStore.map (fun b => b._id) ++ twoCreates.map (fun r => r.newId)).Nodup) ∧
    ((createAll asciiRuntime sampleStore twoCreates).1.length = twoCreates.length ∧
      ∀ resp ∈ (createAll asciiRuntime sampleStore twoCreates).1, resp.status = 201) :=
  ⟨⟨fun r hr => by
      simp only [twoCreates, List.mem_cons, List.mem_singleton, List.not_mem_nil, or_false] at hr
      rcases hr with rfl | rfl <;> exact ⟨rfl, rfl, rfl⟩,
    by decide⟩,
    createAll_without_isbn asciiRuntime twoCreates sampleStore
      (fun r hr => by
        simp only [twoCreates, List.mem_cons, List.mem_singleton, List.not_mem_nil, or_false] at hr
        rcases hr with rfl | rfl <;> exact ⟨rfl, rfl, rfl⟩)
      (by decide)⟩

/-! ## Invariants of the store -/

/-- What the schema validators guarantee about `price` and `stock`. -/
theorem schemaErrors_nil_bounds (now : Int) (u : Bool) (d : BookInput)
    (h : schemaErrors now u d = []) :
    (∀ p, d.price = some p → 0 ≤ p ∧ p ≤ 10000) ∧ (∀ n, d.stock = some n → 0 ≤ n) := by
  unfold schemaErrors at h
  simp only [List.append_eq_nil] at h
  obtain ⟨⟨⟨⟨⟨⟨⟨⟨_, _⟩, hp⟩, _⟩, _⟩, _⟩, _⟩, _⟩, hs⟩ := h
  constructor
  · intro p hpr
    simp only [hpr, List.append_eq_nil] at hp
    constructor
    · by_contra hc
      simp [hc] at hp
    · by_contra hc
      simp [hc] at hp
  · intro n hn
    by_contra hc
    simp [hn, hc] at hs

theorem addBook_bounds (rt : Runtime) (now : Int) (newId : String) (store : Store)
    (errors : List FieldError) (body : BookInput)
    (h : ∀ b ∈ store, 0 ≤ b.price ∧ b.price ≤ 10000 ∧ 0 ≤ b.stock) :
    ∀ b ∈ (addBook rt now newId store errors body).2,
      0 ≤ b.price ∧ b.price ≤ 10000 ∧ 0 ≤ b.stock := by
  unfold addBook
  split_ifs with h1
  · exact h
  · dsimp only
    split
    · rename_i t a p pd ht ha hp hpd
      split_ifs with h2 h3
      · exact h
      · exact h
      · intro b hb
        rw [List.mem_append, List.mem_singleton] at hb
        rcases hb with hb | rfl
        · exact h b hb
        · have herr : schemaErrors now false (applySetters body) = [] := by
            by_contra hc; exact h2 hc
          obtain ⟨hpb, hsb⟩ := schemaErrors_nil_bounds now false _ herr
          have hp' := hpb p hp
          refine ⟨hp'.1, hp'.2, ?_⟩
          show 0 ≤ (applySetters body).stock.getD 0
          cases hst : (applySetters body).stock with
          | none => simp
          | some n => simpa using hsb n hst
    · exact h

theorem updateBook_bounds (now : Int) (store : Store) (errors : List FieldError)
    (id : String) (body : BookInput)
    (h : ∀ b ∈ store, 0 ≤ b.price ∧ b.price ≤ 10000 ∧ 0 ≤ b.stock) :
    ∀ b ∈ (updateBook now store errors id body).2,
      0 ≤ b.price ∧ b.price ≤ 10000 ∧ 0 ≤ b.stock := by
  unfold updateBook
  split_ifs with h1 h2
  · exact h
  · exact h
  dsimp only
  split_ifs with h3
  · exact h
  · split
    · exact h
    · rename_i old hfind
      split_ifs with h4
      · exact h
      · have hold := h old (List.mem_of_find?_eq_some hfind)
        have herr : schemaErrors now true (applySetters body) = [] := by
          by_contra hc; exact h3 hc
        obtain ⟨hpb, hsb⟩ := schemaErrors_nil_bounds now true _ herr
        have hnew : 0 ≤ (applyUpdate now (applySetters body) old).price ∧
            (applyUpdate now (applySetters body) old).price ≤ 10000 ∧
            0 ≤ (applyUpdate now (applySetters body) old).stock := by
          refine ⟨?_, ?_, ?_⟩
          · show 0 ≤ (applySetters body).price.getD old.price
            cases hpr : (applySetters body).price with
            | none => simpa using hold.1
            | some p => simpa using (hpb p hpr).1
          · show (applySetters body).price.getD old.price ≤ 10000
            cases hpr : (applySetters body).price with
            | none => simpa using hold.2.1
            | some p => simpa using (hpb p hpr).2
          · show 0 ≤ (applySetters body).stock.getD old.stock
            cases hst : (applySetters body).stock with
            | none => simpa using hold.2.2
            | some n => simpa using hsb n hst
        intro b hb
        rw [List.mem_map] at hb
        obtain ⟨x, hx, rfl⟩ := hb
        split_ifs
        · exact hnew
        · exact h x hx

theorem deleteBook_sublist (store : Store) (id : String) :
    (deleteBook store id).2.Sublist store := by
  unfold deleteBook
  split_ifs
  · exact List.Sublist.refl _
  · split
    · exact List.Sublist.refl _
    · exact List.eraseP_sublist _

theorem step_bounds (rt : Runtime) (store : Store) (req : Request)
    (h : ∀ b ∈ store, 0 ≤ b.price ∧ b.price ≤ 10000 ∧ 0 ≤ b.stock) :
    ∀ b ∈ step rt store req, 0 ≤ b.price ∧ b.price ≤ 10000 ∧ 0 ≤ b.stock := by
  cases req with
  | create now newId body => exact addBook_bounds rt now newId store _ _ h
  | update now id body => exact updateBook_bounds now store _ id _ h
  | delete id => exact fun b hb => h b ((deleteBook_sublist store id).subset hb)

theorem foldl_step_bounds (rt : Runtime) (reqs : List Request) :
    ∀ store : Store, (∀ b ∈ store, 0 ≤ b.price ∧ b.price ≤ 10000 ∧ 0 ≤ b.stock) →
      ∀ b ∈ reqs.foldl (step rt) store, 0 ≤ b.price ∧ b.price ≤ 10000 ∧ 0 ≤ b.stock := by
  induction reqs with
  | nil => exact fun store h => h
  | cons r rs ih => exact fun store h => ih (step rt store r) (step_bounds rt store r h)

/-- C15: in every store reached from the empty store by a sequence of
create, update and delete requests, every book has `0 ≤ price ≤ 10000` and
`stock ≥ 0`. -/
theorem run_price_stock_bounds (rt : Runtime) (reqs : List Request) :
    ∀ b ∈ run rt reqs, 0 ≤ b.price ∧ b.price ≤ 10000 ∧ 0 ≤ b.stock :=
  foldl_step_bounds rt reqs [] (fun _ hb => absurd hb (List.not_mem_nil _))

/-- The store the sample requests reach: the created and updated book. -/
theorem run_sampleRequests : run asciiRuntime sampleRequests = [updatedHobbit] := by
  rfl

/-- C15 at the store the sample requests reach. -/
theorem run_price_stock_bounds_witness :
    updatedHobbit ∈ run asciiRuntime sampleRequests ∧
      (0 ≤ updatedHobbit.price ∧ updatedHobbit.price ≤ 10000 ∧ 0 ≤ updatedHobbit.stock) :=
  ⟨by rw [run_sampleRequests]; exact List.mem_singleton_self _,
    run_price_stock_bounds asciiRuntime sampleRequests updatedHobbit
      (by rw [run_sampleRequests]; exact List.mem_singleton_self _)⟩

theorem addBook_ids_nodup (rt : Runtime) (now : Int) (newId : String) (store : Store)
    (errors : List FieldError) (body : BookInput)
    (h : (store.map (fun b => b._id)).Nodup) :
    ((addBook rt now newId store errors body).2.map (fun b => b._id)).Nodup := by
  unfold addBook
  split_ifs with h1
  · exact h
  · dsimp only
    split
    · split_ifs with h2 h3
      · exact h
      · exact h
      · have hfresh : idCollides store newId = false := by
          cases hc : idCollides store newId with
          | false => rfl
          | true => exact absurd (by simp [hc]) h3
        rw [List.map_append, List.nodup_append]
        refine ⟨h, by simp, ?_⟩
        intro x hx hx'
        simp only [preSave, List.map_cons, List.map_nil, List.mem_singleton] at hx'
        rw [List.mem_map] at hx
        obtain ⟨b, hb, hbx⟩ := hx
        have : idCollides store newId = true := by
          unfold idCollides
          rw [List.any_eq_true]
          exact ⟨b, hb, by simp [hbx, hx']⟩
        rw [hfresh] at this
        exact Bool.noConfusion this
    · exact h

theorem updateBook_ids (now : Int) (store : Store) (errors : List FieldError)
    (id : String) (body : BookInput) :
    (updateBook now store errors id body).2.map (fun b => b._id)
      = store.map (fun b => b._id) := by
  unfold updateBook
  split_ifs with h1 h2
  · rfl
  · rfl
  dsimp only
  split_ifs with h3
  · rfl
  · split
    · rfl
    · split_ifs with h4
      · rfl
      · rw [List.map_map]
        apply List.map_congr_left
        intro x _
        simp only [Function.comp]
        split_ifs with hx
        · simp [applyUpdate, hx]
        · rfl

/-- In every store reached from the empty store the ids are distinct. -/
theorem run_ids_nodup (rt : Runtime) (reqs : List Request) :
    ((run rt reqs).map (fun b => b._id)).Nodup := by
  have key : ∀ (rs : List Request) (store : Store), (store.map (fun b => b._id)).Nodup →
      ((rs.foldl (step rt) store).map (fun b => b._id)).Nodup := by
    intro rs
    induction rs with
    | nil => exact fun store h => h
    | cons r rs ih =>
      intro store h
      apply ih
      cases r with
      | create now newId body => exact addBook_ids_nodup rt now newId store _ _ h
      | update now id body =>
        show ((updateBook now store _ id _).2.map (fun b => b._id)).Nodup
        rw [updateBook_ids]
        exact h
      | delete id => exact h.sublist ((deleteBook_sublist store id).map _)
  exact key reqs [] List.nodup_nil

theorem eraseP_id_ne (c : String) :
    ∀ store : Store, (store.map (fun b => b._id)).Nodup →
      ∀ b ∈ store.eraseP (fun b => decide (b._id = c)), b._id ≠ c := by
  intro store
  induction store with
  | nil => intro _ b hb; simp at hb
  | cons x xs ih =>
    intro hnd b hb
    rw [List.map_cons, List.nodup_cons] at hnd
    by_cases hx : x._id = c
    · rw [List.eraseP_cons_of_pos (by simpa using hx)] at hb
      intro hbc
      exact hnd.1 (List.mem_map.mpr ⟨b, hb, by rw [hbc, hx]⟩)
    · rw [List.eraseP_cons_of_neg (by simpa using hx), List.mem_cons] at hb
      rcases hb with rfl | hb
      · exact hx
      · exact ih hnd.2 b hb

/-- C16: for a well-formed id and a store whose ids are distinct, the delete
route answers 404 `Book not found` exactly when no stored book has the id,
and then the store is unchanged; otherwise it answers success with
`data.id` the requested id, and the store no longer holds a book with that
id while every other book stays. -/
theorem deleteRoute_notFound_iff (store : Store) (id : String)
    (hwf : castsToObjectId id = true) (hnd : (store.map (fun b => b._id)).Nodup) :
    ((deleteRoute store id).2.1
        = .failure 404 "Book not found" "No book found with the provided ID"
      ↔ ¬ ∃ b ∈ store, b._id = canonicalId id) ∧
    ((¬ ∃ b ∈ store, b._id = canonicalId id) → (deleteRoute store id).2.2 = store) ∧
    ((∃ b ∈ store, b._id = canonicalId id) →
      (deleteRoute store id).2.1 = .deleted id ∧
      (∀ b ∈ (deleteRoute store id).2.2, b._id ≠ canonicalId id) ∧
      (∀ b ∈ store, b._id ≠ canonicalId id → b ∈ (deleteRoute store id).2.2) ∧
      (deleteRoute store id).2.2.Sublist store) := by
  unfold deleteRoute deleteBook
  simp only [hwf, Bool.not_true, Bool.false_eq_true, if_false]
  cases hfind : store.find? (fun b => decide (b._id = canonicalId id)) with
  | none =>
    have hno : ¬ ∃ b ∈ store, b._id = canonicalId id := by
      rintro ⟨b, hb, hbid⟩
      rw [List.find?_eq_none] at hfind
      exact hfind b hb (by simpa using hbid)
    exact ⟨⟨fun _ => hno, fun _ => rfl⟩, fun _ => rfl, fun h => absurd h hno⟩
  | some b0 =>
    have hyes : ∃ b ∈ store, b._id = canonicalId id :=
      ⟨b0, List.mem_of_find?_eq_some hfind, by simpa using List.find?_some hfind⟩
    refine ⟨⟨fun h => ?_, fun h => absurd hyes h⟩, fun h => absurd hyes h, fun _ => ?_⟩
    · exact DeleteResponse.noConfusion h
    · refine ⟨rfl, eraseP_id_ne _ store hnd, ?_, List.eraseP_sublist _⟩
      intro b hb hne
      exact (List.mem_eraseP_of_neg (by simpa using hne)).mpr hb

/-- C16 at the sample collection, deleting `dune`. -/
theorem deleteRoute_notFound_iff_witness :
    (castsToObjectId "64b000000000000000000001" = true ∧
      (sampleStore.map (fun b => b._id)).Nodup) ∧
    (deleteRoute sampleStore "64b000000000000000000001").2
      = (.deleted "64b000000000000000000001", [gaudyNight, theMoonstone]) :=
  ⟨⟨rfl, by decide⟩,
    Prod.ext
      (((deleteRoute_notFound_iff sampleStore "64b000000000000000000001" rfl (by decide)).2.2
        ⟨dune, List.mem_cons_self _ _, rfl⟩).1)
      rfl⟩

/-! ## Statistics -/

/-- C17 (counterexample): for the empty collection the overview is the empty
object: there is no `totalBooks` equal to the number of books. -/
theorem stats_empty_no_totalBooks :
    (getBookStats []).overview = none ∧
      ¬ ∃ o, (getBookStats []).overview = some o ∧ o.totalBooks = ([] : Store).length := by
  refine ⟨rfl, ?_⟩
  rintro ⟨o, ho, _⟩
  exact Option.noConfusion ho

/-- C17 (amended): for every non-empty collection `overview.totalBooks` is
the number of books of the collection; for the empty collection the overview
is the empty object and has no `totalBooks`. -/
theorem stats_totalBooks (store : Store) :
    (getBookStats store).overview.map (fun o => o.totalBooks)
      = if store = [] then none else some store.length := by
  cases store with
  | nil => rfl
  | cons b rest => simp [getBookStats, overviewStats]

theorem count_map_genre (store : Store) (g : String) :
    (store.map (fun b => b.genre)).count g
      = (store.filter (fun b => decide (b.genre = g))).length := by
  induction store with
  | nil => rfl
  | cons x xs ih =>
    by_cases hx : x.genre = g
    · simp [List.count_cons, List.filter_cons, hx, ih]
    · simp [List.count_cons, List.filter_cons, hx, ih]

theorem genreStats_perm (store : Store) :
    (genreStats store).Perm
      ((store.map (fun b => b.genre)).dedup.map (fun g =>
        ({ _id := g
           count := (store.filter (fun b => decide (b.genre = g))).length
           averagePrice :=
            ((store.filter (fun b => decide (b.genre = g))).map (fun x => x.price)).sum /
              ((store.filter (fun b => decide (b.genre = g))).length : ℚ) } : GenreStat))) :=
  List.perm_insertionSort _ _

/-- C18: the `count` fields of the `byGenre` entries add up to the number of
books of the collection, which is `overview.totalBooks` whenever there is an
overview (the collection is non-empty). -/
theorem stats_genre_counts_sum (store : Store) :
    ((getBookStats store).byGenre.map (fun e => e.count)).sum = store.length ∧
      (∀ o, (getBookStats store).overview = some o →
        ((getBookStats store).byGenre.map (fun e => e.count)).sum = o.totalBooks) := by
  have hsum : ((getBookStats store).byGenre.map (fun e => e.count)).sum = store.length := by
    show ((genreStats store).map (fun e => e.count)).sum = store.length
    rw [((genreStats_perm store).map _).sum_eq, List.map_map]
    have h := List.sum_map_count_dedup_eq_length (store.map (fun b => b.genre))
    rw [List.length_map] at h
    rw [← h]
    congr 1
    apply List.map_congr_left
    intro g _
    simp [count_map_genre]
  refine ⟨hsum, ?_⟩
  intro o ho
  rw [hsum]
  cases store with
  | nil => exact Option.noConfusion ho
  | cons b rest =>
    simp only [getBookStats, overviewStats, Option.some.injEq] at ho
    rw [← ho]

/-- C20: `byGenre` has exactly one entry for each genre that some book has
(no genre twice, no entry without a book), the `count` of an entry is the
number of books of its genre (so it is positive) and its `averagePrice` is
their mean price, and the entries are in order of non-increasing `count`. -/
theorem genreStats_spec (store : Store) :
    ((getBookStats store).byGenre.map (fun e => e._id)).Nodup ∧
      (∀ g, g ∈ (getBookStats store).byGenre.map (fun e => e._id) ↔
        ∃ b ∈ store, b.genre = g) ∧
      (∀ e ∈ (getBookStats store).byGenre,
        0 < e.count ∧
        e.count = (store.filter (fun b => decide (b.genre = e._id))).length ∧
        e.averagePrice =
          ((store.filter (fun b => decide (b.genre = e._id))).map (fun x => x.price)).sum /
            (e.count : ℚ)) ∧
      (getBookStats store).byGenre.Pairwise (fun x y => y.count ≤ x.count) := by
  have hperm := genreStats_perm store
  have hids : ((genreStats store).map (fun e => e._id)).Perm
      (store.map (fun b => b.genre)).dedup := by
    have := hperm.map (fun e => e._id)
    simpa [List.map_map, Function.comp_def] using this
  refine ⟨?_, ?_, ?_, ?_⟩
  · exact hids.nodup_iff.mpr (List.nodup_dedup _)
  · intro g
    show g ∈ (genreStats store).map (fun e => e._id) ↔ _
    rw [hids.mem_iff, List.mem_dedup, List.mem_map]
  · intro e he
    have he' : e ∈ genreStats store := he
    rw [hperm.mem_iff, List.mem_map] at he'
    obtain ⟨g, hg, rfl⟩ := he'
    rw [List.mem_dedup, List.mem_map] at hg
    obtain ⟨b, hb, hbg⟩ := hg
    refine ⟨?_, rfl, rfl⟩
    exact List.length_pos_of_mem (List.mem_filter.mpr ⟨hb, by simpa using hbg⟩)
  · haveI : IsTotal GenreStat (fun x y => y.count ≤ x.count) := ⟨fun x y => le_total _ _⟩
    haveI : IsTrans GenreStat (fun x y => y.count ≤ x.count) :=
      ⟨fun _ _ _ h₁ h₂ => le_trans h₂ h₁⟩
    exact List.sorted_insertionSort _ _

theorem yearSorted_perm (store : Store) :
    (((store.map (fun b => yearOf b.publishedDate)).dedup.map (fun y =>
        ({ _id := y
           count := (store.filter (fun b => decide (yearOf b.publishedDate = y))).length }
          : YearStat))).insertionSort (fun x y => y._id ≤ x._id)).Perm
      ((store.map (fun b => yearOf b.publishedDate)).dedup.map (fun y =>
        ({ _id := y
           count := (store.filter (fun b => decide (yearOf b.publishedDate = y))).length }
          : YearStat))) :=
  List.perm_insertionSort _ _

/-- The year groups before the cut to 10 are in strictly decreasing order. -/
theorem yearSorted_strict (store : Store) :
    (((store.map (fun b => yearOf b.publishedDate)).dedup.map (fun y =>
        ({ _id := y
           count := (store.filter (fun b => decide (yearOf b.publishedDate = y))).length }
          : YearStat))).insertionSort (fun x y => y._id ≤ x._id)).Pairwise
      (fun x y => y._id < x._id) := by
  have hids := (yearSorted_perm store).map (fun e => e._id)
  simp only [List.map_map, Function.comp_def, List.map_id'] at hids
  have hnd : List.Nodup (List.map (fun e : YearStat => e._id) _) :=
    hids.nodup_iff.mpr (List.nodup_dedup _)
  have hne := List.pairwise_map.mp hnd
  haveI : IsTotal YearStat (fun x y => y._id ≤ x._id) := ⟨fun x y => le_total _ _⟩
  haveI : IsTrans YearStat (fun x y => y._id ≤ x._id) := ⟨fun _ _ _ h₁ h₂ => le_trans h₂ h₁⟩
  have hle := List.sorted_insertionSort (fun x y : YearStat => y._id ≤ x._id)
    ((store.map (fun b => yearOf b.publishedDate)).dedup.map (fun y =>
        ({ _id := y
           count := (store.filter (fun b => decide (yearOf b.publishedDate = y))).length }
          : YearStat)))
  exact (List.Pairwise.and hle hne).imp (fun h => lt_of_le_of_ne h.1 (Ne.symm h.2))

/-- C19: `byYear` has at most 10 entries, in strictly decreasing order of
year; every entry is the year of some book with the number of books of that
year as its count; and a year of the collection that has no entry is smaller
than the years of all 10 entries: the entries are the (up to) 10 largest
distinct publication years. -/
theorem yearStats_spec (store : Store) :
    (getBookStats store).byYear.length ≤ 10 ∧
      (getBookStats store).byYear.Pairwise (fun x y => y._id < x._id) ∧
      (∀ e ∈ (getBookStats store).byYear,
        (∃ b ∈ store, yearOf b.publishedDate = e._id) ∧
        e.count = (store.filter (fun b => decide (yearOf b.publishedDate = e._id))).length) ∧
      (∀ b ∈ store,
        (∃ e ∈ (getBookStats store).byYear, e._id = yearOf b.publishedDate) ∨
        ((getBookStats store).byYear.length = 10 ∧
          ∀ e ∈ (getBookStats store).byYear, yearOf b.publishedDate < e._id)) := by
  have hstrict := yearSorted_strict store
  have hperm := yearSorted_perm store
  refine ⟨?_, ?_, ?_, ?_⟩
  · show (yearStats store).length ≤ 10
    unfold yearStats
    exact List.length_take_le _ _
  · show (yearStats store).Pairwise _
    unfold yearStats
    exact hstrict.sublist (List.take_sublist _ _)
  · intro e he
    have he' : e ∈ yearStats store := he
    unfold yearStats at he'
    have hmem := (List.take_sublist _ _).subset he'
    rw [hperm.mem_iff, List.mem_map] at hmem
    obtain ⟨y, hy, rfl⟩ := hmem
    rw [List.mem_dedup, List.mem_map] at hy
    exact ⟨hy, rfl⟩
  · intro b hb
    show (∃ e ∈ yearStats store, _) ∨ ((yearStats store).length = 10 ∧ ∀ e ∈ yearStats store, _)
    unfold yearStats
    have hin : ({ _id := yearOf b.publishedDate
                  count := (store.filter
                    (fun x => decide (yearOf x.publishedDate = yearOf b.publishedDate))).length }
                : YearStat) ∈ _ :=
      hperm.mem_iff.mpr (List.mem_map.mpr ⟨yearOf b.publishedDate,
        List.mem_dedup.mpr (List.mem_map.mpr ⟨b, hb, rfl⟩), rfl⟩)
    rw [← List.take_append_drop 10 (List.insertionSort _ _), List.mem_append] at hin
    rcases hin with hin | hin
    · exact Or.inl ⟨_, hin, rfl⟩
    · right
      have hsplit := hstrict
      rw [← List.take_append_drop 10 (List.insertionSort _ _), List.pairwise_append] at hsplit
      refine ⟨?_, fun e he => hsplit.2.2 e he _ hin⟩
      rw [List.length_take]
      have hlen : 0 < (List.drop 10 (List.insertionSort _ _)).length :=
        List.length_pos_of_mem hin
      rw [List.length_drop] at hlen
      omega

/-- The statistics of the sample collection by year. -/
theorem yearStats_sampleStore :
    (getBookStats sampleStore).byYear = [⟨1965, 1⟩, ⟨1935, 1⟩, ⟨1868, 1⟩] := by
  rfl

/-! ## The isbn checks -/

theorem matchDigits_eq_some_nil (n : Nat) :
    ∀ cs : List Char, matchDigits n cs = some [] ↔ cs.length = n ∧ cs.all Char.isDigit = true := by
  induction n with
  | zero =>
    intro cs
    cases cs with
    | nil => simp [matchDigits]
    | cons c cs => simp [matchDigits]
  | succ n ih =>
    intro cs
    cases cs with
    | nil => simp [matchDigits]
    | cons c cs =>
      by_cases hc : c.isDigit = true
      · simp [matchDigits, hc, ih cs]
      · simp [matchDigits, hc]

theorem isbnRegex_eq_isbnPattern (s : String) : isbnRegex s = isbnPattern s := by
  have h10 := matchDigits_eq_some_nil 10 s.data
  have h13 := matchDigits_eq_some_nil 13 s.data
  rw [Bool.eq_iff_iff]
  simp only [isbnRegex, isbnPattern, Bool.or_eq_true, Bool.and_eq_true, beq_iff_eq,
    decide_eq_true_eq, h10, h13, String.length]
  tauto

theorem isDigit_iff (c : Char) : c.isDigit = true ↔ '0' ≤ c ∧ c ≤ '9' := by
  simp only [Char.isDigit, Bool.and_eq_true, decide_eq_true_eq]
  exact Iff.rfl

/-- C21 (counterexample): the two isbn checks do not agree on every text: for
the empty text the check of the route reports the isbn error and the check of
the schema accepts; with a space in front of ten digits likewise. -/
theorem isbn_checks_disagree :
    ((⟨"isbn", "ISBN must be 10 or 13 digits"⟩ : FieldError)
        ∈ validateBook asciiRuntime emptyIsbnInput ∧
      (⟨"isbn", "ISBN must be 10 or 13 digits"⟩ : FieldError)
        ∉ schemaErrors 4000 false (applySetters emptyIsbnInput)) ∧
    ((⟨"isbn", "ISBN must be 10 or 13 digits"⟩ : FieldError)
        ∈ validateBook asciiRuntime { hobbitInput with isbn := some " 0441013597" } ∧
      (⟨"isbn", "ISBN must be 10 or 13 digits"⟩ : FieldError)
        ∉ schemaErrors 4000 false
            (applySetters { hobbitInput with isbn := some " 0441013597" })) := by
  decide

/-- C21 (amended): the pattern `/^(?:\d{10}|\d{13})$/`, which the route and
the schema both use, matches a text exactly when the text consists of ASCII
digits only and its length is 10 or 13.  The check of the route reports an
isbn exactly when the pattern does not match it; the check of the schema
trims the isbn first and reports it exactly when the trimmed text is
non-empty and the pattern does not match it.  So every isbn the route
accepts is accepted by the schema. -/
theorem isbn_checks (rt : Runtime) (now : Int) (u : Bool) (body : BookInput) (s : String) :
    (isbnRegex s = true ↔
      (∀ c ∈ s.data, '0' ≤ c ∧ c ≤ '9') ∧ (s.length = 10 ∨ s.length = 13)) ∧
    ((⟨"isbn", "ISBN must be 10 or 13 digits"⟩ : FieldError)
        ∈ validateBook rt { body with isbn := some s } ↔ isbnRegex s = false) ∧
    ((⟨"isbn", "ISBN must be 10 or 13 digits"⟩ : FieldError)
        ∈ schemaErrors now u (applySetters { body with isbn := some s }) ↔
      (trim s ≠ "" ∧ isbnRegex (trim s) = false)) ∧
    ((⟨"isbn", "ISBN must be 10 or 13 digits"⟩ : FieldError)
        ∉ validateBook rt { body with isbn := some s } →
      (⟨"isbn", "ISBN must be 10 or 13 digits"⟩ : FieldError)
        ∉ schemaErrors now u (applySetters { body with isbn := some s })) := by
  have h1 : isbnRegex s = true ↔
      (∀ c ∈ s.data, '0' ≤ c ∧ c ≤ '9') ∧ (s.length = 10 ∨ s.length = 13) := by
    rw [isbnRegex_eq_isbnPattern]
    simp only [isbnPattern, Bool.and_eq_true, Bool.or_eq_true, decide_eq_true_eq,
      List.all_eq_true, isDigit_iff]
    tauto
  have h2 : (⟨"isbn", "ISBN must be 10 or 13 digits"⟩ : FieldError)
      ∈ validateBook rt { body with isbn := some s } ↔ isbnRegex s = false := by
    rw [isbnRegex_eq_isbnPattern]
    unfold validateBook
    simp only [sanitizeBook, List.mem_append]
    constructor
    · intro h
      rcases h with (((((((h | h) | h) | h) | h) | h) | h) | h) | h
      all_goals first
        | (by_contra hc; simp [hc] at h)
        | (exfalso; revert h; split <;> (try split) <;> simp)
    · intro h
      left; left; left; left; right
      simp [h]
  have h3 : (⟨"isbn", "ISBN must be 10 or 13 digits"⟩ : FieldError)
      ∈ schemaErrors now u (applySetters { body with isbn := some s }) ↔
      (trim s ≠ "" ∧ isbnRegex (trim s) = false) := by
    rw [isbnRegex_eq_isbnPattern]
    unfold schemaErrors
    simp only [applySetters, Option.map_some', List.mem_append]
    constructor
    · intro h
      rcases h with (((((((h | h) | h) | h) | h) | h) | h) | h) | h
      all_goals first
        | (by_contra hc
           have hc' : trim s = "" ∨ isbnPattern (trim s) = true := by
             by_contra hn
             push_neg at hn
             exact hc ⟨hn.1, by simpa using hn.2⟩
           simp [hc'] at h)
        | (exfalso; revert h; split <;> (try split_ifs) <;> simp)
    · intro h
      left; left; left; left; right
      have : ¬ (trim s = "" ∨ isbnPattern (trim s) = true) := by
        rintro (h' | h')
        · exact h.1 h'
        · rw [h.2] at h'; exact Bool.noConfusion h'
      simp [this]
  refine ⟨h1, h2, h3, ?_⟩
  intro hroute hschema
  rw [h3] at hschema
  have hs : isbnRegex s = true := by
    cases hr : isbnRegex s with
    | true => rfl
    | false => exact absurd (h2.mpr hr) hroute
  have htrim : trim s = s := trim_of_isbnPattern s (by rw [← isbnRegex_eq_isbnPattern]; exact hs)
  rw [htrim, hs] at hschema
  exact Bool.noConfusion hschema.2

/-! ## Route validation against schema validation -/

theorem validateBook_nil_genre (rt : Runtime) (body : BookInput)
    (h : validateBook rt body = []) : ∀ g, body.genre = some g → g ∈ genres := by
  unfold validateBook at h
  simp only [List.append_eq_nil, sanitizeBook, Option.getD_some] at h
  obtain ⟨⟨⟨⟨⟨⟨⟨⟨_, _⟩, _⟩, _⟩, _⟩, hg⟩, _⟩, _⟩, _⟩ := h
  intro g hgb
  by_contra hc
  simp [hgb, hc] at hg

/-- C22 (counterexample): the validators of the route and of the schema do
not accept the same bodies: a body with a publication date after the clock
passes `validateBook` and fails the schema; a body with an empty isbn fails
`validateBook` and passes the schema. -/
theorem validators_disagree :
    (validateBook asciiRuntime futureInput = [] ∧
      schemaErrors 4000 false (applySetters futureInput)
        = [⟨"publishedDate", "Published date cannot be in the future"⟩]) ∧
    (validateBook asciiRuntime emptyIsbnInput = [⟨"isbn", "ISBN must be 10 or 13 digits"⟩] ∧
      schemaErrors 4000 false (applySetters emptyIsbnInput) = []) := by
  decide

/-- C22 (amended): for every body that `validateBook` accepts, the schema
validators report nothing but a title, author or description that is too long
(the schema counts UTF-16 units), a publication date in the future, or a
cover image that does not match the pattern of the schema; in particular no
required field is missing and price, isbn, genre and stock pass. -/
theorem schemaErrors_of_validateBook_nil (rt : Runtime) (now : Int) (body : BookInput)
    (hv : validateBook rt body = []) :
    ∀ e ∈ schemaErrors now false (applySetters body),
      e = ⟨"title", "Title cannot be more than 200 characters"⟩ ∨
      e = ⟨"author", "Author name cannot be more than 100 characters"⟩ ∨
      e = ⟨"publishedDate", "Published date cannot be in the future"⟩ ∨
      e = ⟨"description", "Description cannot be more than 1000 characters"⟩ ∨
      e = ⟨"coverImage", "Cover image must be a valid URL"⟩ := by
  obtain ⟨hne1, hne2⟩ := validateBook_nil rt body hv
  obtain ⟨⟨p, hprice, hp0, hp1⟩, ⟨pd, hdate⟩, hisbn, hstock⟩ := validateBook_nil_fields rt body hv
  have hgenre := validateBook_nil_genre rt body hv
  have htitle : ∃ t, body.title = some t := by
    cases ht : body.title with
    | none => rw [ht] at hne1; exact absurd rfl hne1
    | some t => exact ⟨t, rfl⟩
  have hauthor : ∃ a, body.author = some a := by
    cases ha : body.author with
    | none => rw [ha] at hne2; exact absurd rfl hne2
    | some a => exact ⟨a, rfl⟩
  obtain ⟨t, ht⟩ := htitle
  obtain ⟨a, ha⟩ := hauthor
  rw [ht] at hne1
  rw [ha] at hne2
  simp only [Option.getD_some] at hne1 hne2
  intro e he
  unfold schemaErrors at he
  simp only [applySetters, ht, ha, hprice, hdate, Option.map_some', List.mem_append] at he
  rcases he with (((((((he | he) | he) | he) | he) | he) | he) | he) | he
  · simp only [hne1, if_false, List.mem_append, List.not_mem_nil, false_or] at he
    split_ifs at he
    · simp at he
    · simp only [List.mem_singleton] at he
      exact Or.inl he
  · simp only [hne2, if_false, List.mem_append, List.not_mem_nil, false_or] at he
    split_ifs at he
    · simp at he
    · simp only [List.mem_singleton] at he
      exact Or.inr (Or.inl he)
  · simp [hp0, hp1] at he
  · split_ifs at he
    · simp at he
    · simp only [List.mem_singleton] at he
      exact Or.inr (Or.inr (Or.inl he))
  · cases hi : body.isbn with
    | none => simp [hi] at he
    | some i =>
      have hpat := hisbn i hi
      simp [hi, trim_of_isbnPattern i hpat, hpat] at he
  · cases hg : body.genre with
    | none => simp [hg] at he
    | some g => simp [hg, hgenre g hg] at he
  · cases hd : body.description with
    | none => simp [hd] at he
    | some d =>
      simp only [hd] at he
      split_ifs at he
      · simp at he
      · simp only [List.mem_singleton] at he
        exact Or.inr (Or.inr (Or.inr (Or.inl he)))
  · cases hc : body.coverImage with
    | none => simp [hc] at he
    | some c =>
      simp only [hc] at he
      split_ifs at he
      · simp at he
      · simp only [List.mem_singleton] at he
        exact Or.inr (Or.inr (Or.inr (Or.inr he)))
  · cases hs : body.stock with
    | none => simp [hs] at he
    | some n => simp [hs, hstock n hs] at he

/-- C22 (amended) at the body with a publication date after the clock. -/
theorem schemaErrors_of_validateBook_nil_witness :
    (validateBook asciiRuntime futureInput = [] ∧
      (⟨"publishedDate", "Published date cannot be in the future"⟩ : FieldError)
        ∈ schemaErrors 4000 false (applySetters futureInput)) ∧
    ((⟨"publishedDate", "Published date cannot be in the future"⟩ : FieldError)
        = ⟨"title", "Title cannot be more than 200 characters"⟩ ∨
      (⟨"publishedDate", "Published date cannot be in the future"⟩ : FieldError)
        = ⟨"author", "Author name cannot be more than 100 characters"⟩ ∨
      (⟨"publishedDate", "Published date cannot be in the future"⟩ : FieldError)
        = ⟨"publishedDate", "Published date cannot be in the future"⟩ ∨
      (⟨"publishedDate", "Published date cannot be in the future"⟩ : FieldError)
        = ⟨"description", "Description cannot be more than 1000 characters"⟩ ∨
      (⟨"publishedDate", "Published date cannot be in the future"⟩ : FieldError)
        = ⟨"coverImage", "Cover image must be a valid URL"⟩) :=
  ⟨⟨by decide, by decide⟩,
    schemaErrors_of_validateBook_nil asciiRuntime 4000 futureInput (by decide)
      ⟨"publishedDate", "Published date cannot be in the future"⟩ (by decide)⟩

/-! ## Error messages -/

/-- C23 (the code at the failing input): with `NODE_ENV` set to `production`,
two store failures in `getBooks` that differ only in the message of the
error are answered with different bodies, each carrying the message of its
error; in `addBook` likewise.  The global error handler, which the failures
never reach, would answer both with `Something went wrong`. -/
theorem production_message_not_generic :
    onStoreFailure (some "production") .getBooks connectionRefused
        = ⟨500, "Failed to fetch books", some "connect ECONNREFUSED 10.0.0.5:27017", none⟩ ∧
      onStoreFailure (some "production") .getBooks selectionTimeout
        = ⟨500, "Failed to fetch books", some "Server selection timed out after 30000 ms",
            none⟩ ∧
      onStoreFailure (some "production") .getBooks connectionRefused
        ≠ onStoreFailure (some "production") .getBooks selectionTimeout ∧
      onStoreFailure (some "production") .addBook connectionRefused
        ≠ onStoreFailure (some "production") .addBook selectionTimeout ∧
      globalErrorHandler (some "production") connectionRefused
        = globalErrorHandler (some "production") selectionTimeout := by
  decide

/-- C24 (the code at the failing input): the validation error response of a
create request with an empty body carries no `message`, and the message the
client hands to the view is the message of the transport error, not one the
server provided. -/
theorem validation_error_has_no_message :
    (postRoute asciiRuntime 4000 "64b000000000000000000004" sampleStore {}).1.errorBody.map
        (fun e => e.message) = some none ∧
      notification
          (rejectWith
            { message := "Request failed with status code 400"
              response :=
                (postRoute asciiRuntime 4000 "64b000000000000000000004" sampleStore
                  {}).1.errorBody })
          "Failed to save book"
        = "Request failed with status code 400" := by
  decide

/-- Every not-found, duplicate or unexpected error response of the book
controllers (every error response but the validation error) carries a
`message`, and when that message is non-empty the message the client hands
to the view for its notification is exactly that message; the validation
error response carries `details` and no `message`. -/
theorem client_message_of_failure (transport fallback : String) (st : Nat) (err m : String) :
    ((ListResponse.failure st err m).errorBody = some ⟨st, err, some m, none⟩ ∧
      (BookResponse.failure st err m).errorBody = some ⟨st, err, some m, none⟩ ∧
      (GetResponse.failure st err m).errorBody = some ⟨st, err, some m, none⟩ ∧
      (DeleteResponse.failure st err m).errorBody = some ⟨st, err, some m, none⟩) ∧
    (m ≠ "" →
      notification (rejectWith ⟨transport, some ⟨st, err, some m, none⟩⟩) fallback = m) ∧
    (∀ (h : Handler) (error : ThrownError), ∃ msg, (catchBlock h error).message = some msg) ∧
    (∀ details, (BookResponse.validationError details).errorBody
      = some ⟨400, "Validation Error", none, some details⟩) := by
  refine ⟨⟨rfl, rfl, rfl, rfl⟩, ?_, ?_, fun _ => rfl⟩
  · intro hm
    simp [notification, rejectWith, orElse, hm]
  · intro h error
    cases h <;> simp only [catchBlock] <;> (try split_ifs) <;> exact ⟨_, rfl⟩

/-- C25: the response interceptor rejects with `{ message, status }`, where
`message` is non-empty: it is the `message` of the response body when that is
present and non-empty, otherwise the message of the transport error when that
is non-empty, otherwise `Something went wrong`; and `status` is the status of
the response, or absent when no response was received. -/
theorem rejectWith_spec (error : AxiosError) :
    (rejectWith error).message ≠ "" ∧
    (∀ r m, error.response = some r → r.message = some m → m ≠ "" →
      (rejectWith error).message = m) ∧
    ((∀ r m, error.response = some r → r.message = some m → m = "") →
      error.message ≠ "" → (rejectWith error).message = error.message) ∧
    ((∀ r m, error.response = some r → r.message = some m → m = "") →
      error.message = "" → (rejectWith error).message = "Something went wrong") ∧
    (∀ r, error.response = some r → (rejectWith error).status = some r.status) ∧
    (error.response = none → (rejectWith error).status = none) := by
  obtain ⟨msg, resp⟩ := error
  cases resp with
  | none =>
    by_cases h : msg = "" <;> simp [rejectWith, orElse, h]
  | some r =>
    cases hm : r.message with
    | none =>
      by_cases h : msg = "" <;> simp [rejectWith, orElse, h, hm] <;>
        intro r1 m1 hr h1 <;> subst hr <;> rw [hm] at h1 <;> exact Option.noConfusion h1
    | some m =>
      have key : ∀ (r1 : ErrorBody) (m1 : String), r = r1 → r1.message = some m1 → m1 = m := by
        intro r1 m1 hr h1
        subst hr
        rw [hm] at h1
        exact (Option.some.inj h1).symm
      by_cases h' : m = ""
      · by_cases h : msg = "" <;> simp [rejectWith, orElse, h, hm, h'] <;>
          intro r1 m1 hr h1 h2 <;> exact absurd ((key r1 m1 hr h1).trans h') h2
      · by_cases h : msg = "" <;> simp [rejectWith, orElse, h, hm, h'] <;>
          intro r1 m1 hr h1 _ <;> exact (key r1 m1 hr h1).symm

/-- C26 (the code at the failing input): for the base URL
`https://example.com//` the cleaned base URL is `https://example.com/`, which
ends with `/`: only one `/` is removed. -/
theorem cleanedBaseUrl_double_slash :
    cleanedBaseUrl (apiBaseUrl (some "https://example.com//")) = "https://example.com/" ∧
      (cleanedBaseUrl (apiBaseUrl (some "https://example.com//"))).data.getLast? = some '/' := by
  decide

/-! ## Pagination flags -/

/-- C27: for a page `p ≥ 1` and a limit `L ≥ 1`, `getBooks` answers with
`hasNextPage` true exactly when `p * L` is less than the total of matching
records, and `hasPrevPage` true exactly when `p > 1`. -/
theorem getBooks_flags (rt : Runtime) (store : Store) (q : ListQuery) (p L : Nat)
    (hp : 1 ≤ p) (hL : 1 ≤ L) (hq : q.limit = some L) :
    ∃ data pg, getBooks rt store { q with page := some p } = .ok data pg ∧
      pg.totalBooks = (store.filter ((buildQuery q).matches rt)).length ∧
      (pg.hasNextPage = true ↔ p * L < pg.totalBooks) ∧
      (pg.hasPrevPage = true ↔ 1 < p) := by
  refine ⟨_, _, getBooks_page rt store q p L hp hL hq, rfl, ?_, ?_⟩
  · simp only [decide_eq_true_eq]
    rw [Nat.lt_iff_add_one_le, Nat.le_div_iff_mul_le hL, Nat.add_mul]
    omega
  · simp only [decide_eq_true_eq]

/-- C27 at the sample collection, first page of two records. -/
theorem getBooks_flags_witness :
    (1 ≤ 1 ∧ 1 ≤ 2 ∧ twoPerPage.limit = some 2) ∧
    ∃ data pg, getBooks asciiRuntime sampleStore { twoPerPage with page := some 1 }
        = .ok data pg ∧
      pg.totalBooks = (sampleStore.filter ((buildQuery twoPerPage).matches asciiRuntime)).length ∧
      (pg.hasNextPage = true ↔ 1 * 2 < pg.totalBooks) ∧
      (pg.hasPrevPage = true ↔ 1 < 1) :=
  ⟨⟨by decide, by decide, rfl⟩,
    getBooks_flags asciiRuntime sampleStore twoPerPage 1 2 (by decide) (by decide) rfl⟩

/-! ## Idempotence of the normalization -/

theorem ascii_case_closed : ∀ n : Fin 128,
    (Char.ofNat n).toUpper.toUpper = (Char.ofNat n).toUpper ∧
    (Char.ofNat n).toUpper.toNat < 128 ∧
    (Char.ofNat n).toLower.toLower = (Char.ofNat n).toLower ∧
    (Char.ofNat n).toLower.toNat < 128 := by
  decide

theorem ascii_case_char (c : Char) (h : c.toNat < 128) :
    c.toUpper.toUpper = c.toUpper ∧ c.toUpper.toNat < 128 ∧
    c.toLower.toLower = c.toLower ∧ c.toLower.toNat < 128 := by
  have := ascii_case_closed ⟨c.toNat, h⟩
  simpa [Char.ofNat_toNat] using this

/-- C28 (counterexample): with the uppercase of `ß` being `SS`, as in
JavaScript, the normalization of `ßeta` is `SSeta`, whose normalization is
`Sseta`: the normalization is not idempotent on every text. -/
theorem capitalize_not_idempotent :
    capitalize sharpSRuntime "ßeta" = "SSeta" ∧
      capitalize sharpSRuntime (capitalize sharpSRuntime "ßeta") = "Sseta" ∧
      capitalize sharpSRuntime (capitalize sharpSRuntime "ßeta")
        ≠ capitalize sharpSRuntime "ßeta" := by
  decide

/-- C28 (amended): on every text of ASCII characters, where the case mapping
of the runtime is that of the ASCII letters, the normalization is idempotent:
normalizing the normalized text gives the normalized text. -/
theorem capitalize_idempotent_ascii (rt : Runtime) (s : String)
    (hU : ∀ x, isAscii x = true → rt.toUpperCase x = asciiRuntime.toUpperCase x)
    (hLow : ∀ x, isAscii x = true → rt.toLowerCase x = asciiRuntime.toLowerCase x)
    (hs : isAscii s = true) :
    capitalize rt (capitalize rt s) = capitalize rt s := by
  have hall : ∀ c ∈ s.data, c.toNat < 128 := by
    simpa [isAscii, List.all_eq_true] using hs
  have hcap : ∀ x : String, (∀ c ∈ x.data, c.toNat < 128) →
      capitalize rt x = String.mk ((x.data.take 1).map Char.toUpper ++
        (x.data.drop 1).map Char.toLower) := by
    intro x hx
    have h1 : isAscii (String.mk (x.data.take 1)) = true := by
      simp only [isAscii, List.all_eq_true, decide_eq_true_eq]
      exact fun c hc => hx c (List.mem_of_mem_take hc)
    have h2 : isAscii (String.mk (x.data.drop 1)) = true := by
      simp only [isAscii, List.all_eq_true, decide_eq_true_eq]
      exact fun c hc => hx c (List.mem_of_mem_drop hc)
    unfold capitalize
    rw [hU _ h1, hLow _ h2]
    apply String.ext
    simp [asciiRuntime, String.data_append]
  rw [hcap s hall]
  cases hd : s.data with
  | nil =>
    rw [hcap _ (by simp)]
    simp
  | cons c rest =>
    have hc := ascii_case_char c (hall c (by rw [hd]; exact List.mem_cons_self c rest))
    have hrest : ∀ d ∈ rest, d.toLower.toLower = d.toLower ∧ d.toLower.toNat < 128 := by
      intro d hdm
      have := ascii_case_char d (hall d (by rw [hd]; exact List.mem_cons_of_mem c hdm))
      exact ⟨this.2.2.1, this.2.2.2⟩
    have hascii' : ∀ x ∈ (String.mk ((List.take 1 (c :: rest)).map Char.toUpper ++
        (List.drop 1 (c :: rest)).map Char.toLower)).data, x.toNat < 128 := by
      intro x hx
      simp only [List.take_succ_cons, List.take_zero, List.map_cons, List.map_nil,
        List.drop_succ_cons, List.drop_zero, List.singleton_append, List.mem_cons,
        List.mem_map] at hx
      rcases hx with rfl | ⟨d, hdm, rfl⟩
      · exact hc.2.1
      · exact (hrest d hdm).2
    rw [hcap _ hascii']
    apply String.ext
    simp only [List.take_succ_cons, List.take_zero, List.map_cons, List.map_nil,
      List.drop_succ_cons, List.drop_zero, List.singleton_append, List.map_map, hc.1,
      List.cons.injEq, true_and]
    apply List.map_congr_left
    intro d hdm
    exact (hrest d hdm).1

/-- C28 (amended) at the title `the HOBBIT`. -/
theorem capitalize_idempotent_ascii_witness :
    ((∀ x, isAscii x = true → asciiRuntime.toUpperCase x = asciiRuntime.toUpperCase x) ∧
      (∀ x, isAscii x = true → asciiRuntime.toLowerCase x = asciiRuntime.toLowerCase x) ∧
      isAscii "the HOBBIT" = true) ∧
    capitalize asciiRuntime (capitalize asciiRuntime "the HOBBIT")
      = capitalize asciiRuntime "the HOBBIT" :=
  ⟨⟨fun _ _ => rfl, fun _ _ => rfl, by decide⟩,
    capitalize_idempotent_ascii asciiRuntime "the HOBBIT" (fun _ _ => rfl) (fun _ _ => rfl)
      (by decide)⟩

/-! ## The overview -/

theorem foldl_min_price (l : List Book) :
    ∀ m0 : ℚ,
      (l.foldl (fun m x => min m x.price) m0 ≤ m0 ∧
        ∀ x ∈ l, l.foldl (fun m x => min m x.price) m0 ≤ x.price) ∧
      (l.foldl (fun m x => min m x.price) m0 = m0 ∨
        ∃ x ∈ l, x.price = l.foldl (fun m x => min m x.price) m0) := by
  induction l with
  | nil => intro m0; simp
  | cons a t ih =>
    intro m0
    obtain ⟨⟨h1, h2⟩, h3⟩ := ih (min m0 a.price)
    simp only [List.foldl_cons, List.mem_cons]
    refine ⟨⟨h1.trans (min_le_left _ _), ?_⟩, ?_⟩
    · rintro x (rfl | hx)
      · exact h1.trans (min_le_right _ _)
      · exact h2 x hx
    · rcases h3 with h3 | ⟨x, hx, hxe⟩
      · rcases min_choice m0 a.price with hm | hm
        · left; rw [h3, hm]
        · right; exact ⟨a, Or.inl rfl, by rw [h3, hm]⟩
      · right; exact ⟨x, Or.inr hx, hxe⟩

theorem foldl_max_price (l : List Book) :
    ∀ m0 : ℚ,
      (m0 ≤ l.foldl (fun m x => max m x.price) m0 ∧
        ∀ x ∈ l, x.price ≤ l.foldl (fun m x => max m x.price) m0) ∧
      (l.foldl (fun m x => max m x.price) m0 = m0 ∨
        ∃ x ∈ l, x.price = l.foldl (fun m x => max m x.price) m0) := by
  induction l with
  | nil => intro m0; simp
  | cons a t ih =>
    intro m0
    obtain ⟨⟨h1, h2⟩, h3⟩ := ih (max m0 a.price)
    simp only [List.foldl_cons, List.mem_cons]
    refine ⟨⟨(le_max_left _ _).trans h1, ?_⟩, ?_⟩
    · rintro x (rfl | hx)
      · exact (le_max_right _ _).trans h1
      · exact h2 x hx
    · rcases h3 with h3 | ⟨x, hx, hxe⟩
      · rcases max_choice m0 a.price with hm | hm
        · left; rw [h3, hm]
        · right; exact ⟨a, Or.inl rfl, by rw [h3, hm]⟩
      · right; exact ⟨x, Or.inr hx, hxe⟩

/-- C29: for every non-empty collection the overview exists and satisfies
`minPrice ≤ averagePrice ≤ maxPrice` and `averagePrice * totalBooks =
totalValue` over exact rational prices, and `minPrice` and `maxPrice` are each
the price of some book of the collection. -/
theorem overview_bounds (store : Store) (h : store ≠ []) :
    ∃ o, (getBookStats store).overview = some o ∧
      o.minPrice ≤ o.averagePrice ∧ o.averagePrice ≤ o.maxPrice ∧
      o.averagePrice * (o.totalBooks : ℚ) = o.totalValue ∧
      (∃ b ∈ store, b.price = o.minPrice) ∧ (∃ b ∈ store, b.price = o.maxPrice) := by
  cases store with
  | nil => exact absurd rfl h
  | cons b rest =>
    obtain ⟨⟨hmin0, hminall⟩, hminmem⟩ := foldl_min_price rest b.price
    obtain ⟨⟨hmax0, hmaxall⟩, hmaxmem⟩ := foldl_max_price rest b.price
    have hn : (0 : ℚ) < (((b :: rest).length : ℕ) : ℚ) := by
      have : 0 < (b :: rest).length := Nat.succ_pos _
      exact_mod_cast this
    have hlow : ∀ x ∈ (b :: rest).map (fun x => x.price),
        rest.foldl (fun m x => min m x.price) b.price ≤ x := by
      intro x hx
      rw [List.mem_map] at hx
      obtain ⟨y, hy, rfl⟩ := hx
      rcases List.mem_cons.mp hy with rfl | hy
      · exact hmin0
      · exact hminall y hy
    have hhigh : ∀ x ∈ (b :: rest).map (fun x => x.price),
        x ≤ rest.foldl (fun m x => max m x.price) b.price := by
      intro x hx
      rw [List.mem_map] at hx
      obtain ⟨y, hy, rfl⟩ := hx
      rcases List.mem_cons.mp hy with rfl | hy
      · exact hmax0
      · exact hmaxall y hy
    have hsum1 := List.card_nsmul_le_sum _ _ hlow
    have hsum2 := List.sum_le_card_nsmul _ _ hhigh
    rw [List.length_map, nsmul_eq_mul] at hsum1 hsum2
    refine ⟨_, rfl, ?_, ?_, ?_, ?_, ?_⟩
    · show _ ≤ _ / _
      rw [le_div_iff₀ hn, mul_comm]
      exact hsum1
    · show _ / _ ≤ _
      rw [div_le_iff₀ hn, mul_comm]
      exact hsum2
    · show _ / _ * _ = _
      exact div_mul_cancel₀ _ (ne_of_gt hn)
    · rcases hminmem with he | ⟨x, hx, hxe⟩
      · exact ⟨b, List.mem_cons_self _ _, he.symm⟩
      · exact ⟨x, List.mem_cons_of_mem _ hx, hxe⟩
    · rcases hmaxmem with he | ⟨x, hx, hxe⟩
      · exact ⟨b, List.mem_cons_self _ _, he.symm⟩
      · exact ⟨x, List.mem_cons_of_mem _ hx, hxe⟩

/-- C29 at the sample collection. -/
theorem overview_bounds_witness :
    sampleStore ≠ [] ∧
    ∃ o, (getBookStats sampleStore).overview = some o ∧
      o.minPrice ≤ o.averagePrice ∧ o.averagePrice ≤ o.maxPrice ∧
      o.averagePrice * (o.totalBooks : ℚ) = o.totalValue ∧
      (∃ b ∈ sampleStore, b.price = o.minPrice) ∧ (∃ b ∈ sampleStore, b.price = o.maxPrice) :=
  ⟨List.cons_ne_nil _ _, overview_bounds sampleStore (List.cons_ne_nil _ _)⟩

/-! ## The filters of the list view -/

/-- C30 (the code at the failing input): with `desc` typed into the search
box the filter state differs from the default state and the condition of the
`Clear Filters` button is false; with `createdAt` as search text likewise.
`clearFilters` does restore the default state with `currentPage` 1. -/
theorem showClearFilters_misses_search :
    (searchDescFilters ≠ defaultFilters ∧ showClearFilters searchDescFilters = false) ∧
    ({ defaultFilters with search := "createdAt" } ≠ defaultFilters ∧
      showClearFilters { defaultFilters with search := "createdAt" } = false) ∧
    clearFilters (searchDescFilters, thirdPage)
      = (defaultFilters, { thirdPage with currentPage := 1 }) := by
  decide

end Bookstore
